import Mathlib

/-!
# Verification of the Rayda Marmaray train simulation

Shallow embedding of the core algorithms of the Rayda repository:

* `src/utils/trainSimulation.ts`   — fleet generation and the time-to-position resolver
* `src/utils/timetableCalculations.ts` — per-station arrival prediction
* `src/utils/scheduleCalculator.ts` — service windows and schedule-projected departures
* `src/utils/journeyPlanner.ts`    — journey planning between two stations
* `src/utils/pathfinder.ts` (`SimpleRouteCalculator`) — geometry mapping of station pairs
  onto track polylines

Modelling conventions:

* JavaScript `Date` values are modelled as integer milliseconds; `dayStart` is the
  millisecond timestamp of local midnight of the current day, so `d.setHours(h, m, 0, 0)`
  on a copy of `now` becomes `dayStart + (60 * h + m) * 60000` (DST shifts are not
  modelled).  `d.setMinutes(d.getMinutes() + x)` is `d + x * 60000`, and
  `setDate(getDate() + 1)` is `d + 86400000`.
* JavaScript numbers are embedded as `ℤ` where the source only ever holds integers
  (timestamps, seconds, minute counts) and as `ℚ` where genuine division occurs
  (progress fractions, confidence scores, coordinates).
* `Math.floor(a / b)` / `Math.ceil(a / b)` on integers with positive `b` are
  `jsFloorDiv` / `jsCeilDiv`.
* Fallible lookups (`Array.prototype.find`) are `List.find?`.  Where the source
  dereferences a failed lookup (a TypeScript non-null assertion that would throw at
  run time), the embedding returns `none`; the theorems below carry hypotheses making
  those branches unreachable, mirroring the complete data shipped with the app.
-/

namespace Rayda

/-- `Math.floor (a / b)` for integer `a` and positive integer `b`
(integer `Int.ediv` rounds toward `-∞` exactly when the divisor is positive). -/
def jsFloorDiv (a b : ℤ) : ℤ := a / b

/-- `Math.ceil (a / b)` for integer `a` and positive integer `b`. -/
def jsCeilDiv (a b : ℤ) : ℤ := -((-a) / b)

/-- `Math.round q` (round half toward `+∞`, as JavaScript does). -/
def jsRound (q : ℚ) : ℤ := ⌊q + 1 / 2⌋

/-- Truncation toward zero, as applied by the `Date` constructor to a
fractional millisecond argument. -/
def jsTrunc (q : ℚ) : ℤ := if q < 0 then -⌊-q⌋ else ⌊q⌋

/-! ## Static data model (`src/types/index.ts`, `src/data/stations.ts`, `src/data/routes.ts`) -/

/-- A station record; `coordinates` is `(longitude, latitude)` and
`distanceFromStart` is measured in km from Halkalı. -/
structure Station where
  id : String
  name : String
  coordinates : ℚ × ℚ
  distanceFromStart : ℚ
deriving DecidableEq

/-- Placeholder used only as the default of `List.getD` lookups whose indices are
proved in range before use. -/
def dummyStation : Station := ⟨"", "", (0, 0), 0⟩

inductive Direction where
  | forward
  | backward
deriving DecidableEq

/-- A route pattern: ordered station ids, termini and headway in minutes. -/
structure Route where
  id : String
  name : String
  termini : String × String
  frequency : ℤ
  stations : List String
  color : String
deriving DecidableEq

/-- One directional entry of the inter-station travel-time table (seconds). -/
structure InterStationTime where
  fromStationId : String
  toStationId : String
  time : ℤ
deriving DecidableEq

/-- `getInterStationTime` (duplicated verbatim in `trainSimulation.ts`,
`timetableCalculations.ts` and `journeyPlanner.ts`): directional table lookup
with the documented 120-second fallback. -/
def getInterStationTime (times : List InterStationTime) (f t : String) : ℤ :=
  match times.find? (fun e => e.fromStationId == f && e.toStationId == t) with
  | some e => e.time
  | none => 120

/-- `Array.prototype.indexOf`: first index of `s`, `-1` when absent. -/
def jsIndexOf (l : List String) (s : String) : ℤ :=
  match l.findIdx? (· == s) with
  | some n => (n : ℤ)
  | none => -1

/-- The consecutive pairs `(l[i], l[i+1])` iterated by the various
`for (let i = 0; i < l.length - 1; i++)` loops. -/
def adjPairs {α : Type} (l : List α) : List (α × α) := l.zip l.tail

/-- The ascending integer indices `lo, lo+1, …, hi-1` of a `for` loop. -/
def idxRangeAsc (lo hi : ℤ) : List ℤ :=
  (List.range (hi - lo).toNat).map (fun k => lo + (k : ℤ))

/-! ## Fleet generation and position resolution (`src/utils/trainSimulation.ts`) -/

/-- The mutable per-train state created by `createTrain`. -/
structure TrainCurrentPosition where
  fromStationId : String
  toStationId : String
  progress : ℚ
  coordinates : ℚ × ℚ
deriving DecidableEq

/-- A `Train` instance as created by `TrainSimulationEngine.createTrain`. -/
structure Train where
  id : String
  routeId : String
  direction : Direction
  departureTime : ℤ
  currentPosition : TrainCurrentPosition
deriving DecidableEq

/-- The template literal used for train ids in `createTrainsForRoute`:
the route id, the direction word and the departure index. -/
def mkTrainId (routeId : String) (dir : Direction) (i : ℕ) : String :=
  routeId ++ (match dir with
    | .forward => "-forward-"
    | .backward => "-backward-") ++ toString i

/-- `getStationCoordinates`: station lookup with the Istanbul-centre default. -/
def getStationCoordinates (stationsData : List Station) (stationId : String) : ℚ × ℚ :=
  match stationsData.find? (fun s => s.id == stationId) with
  | some s => s.coordinates
  | none => (29.0, 41.0)

/-- `TrainSimulationEngine.createTrain`.  The source re-finds the route by id and
dereferences the result with a non-null assertion; a failed lookup (impossible for
the callers, which pass `route.id` of a member of `routes`) is modelled as `none`. -/
def createTrain (stationsData : List Station) (routes : List Route)
    (trainId routeId : String) (dir : Direction) (departureTime : ℤ) : Option Train :=
  match routes.find? (fun r => r.id == routeId) with
  | none => none
  | some route =>
    let startStationId := match dir with
      | .forward => route.termini.1
      | .backward => route.termini.2
    let endStationId := match dir with
      | .forward => route.termini.2
      | .backward => route.termini.1
    some { id := trainId, routeId := routeId, direction := dir,
           departureTime := departureTime,
           currentPosition :=
             { fromStationId := startStationId, toStationId := endStationId,
               progress := 0,
               coordinates := getStationCoordinates stationsData startStationId } }

/-- Service-window start for a route on the day beginning at `dayStart`
(20:50 for the evening pattern, 06:00 otherwise). -/
def serviceStartOf (route : Route) (dayStart : ℤ) : ℤ :=
  if route.id == "marmaray-evening" then dayStart + 75000000 else dayStart + 21600000

/-- Service-window end for a route on the day beginning at `dayStart`
(23:30 for the evening pattern, 22:30 otherwise). -/
def serviceEndOf (route : Route) (dayStart : ℤ) : ℤ :=
  if route.id == "marmaray-evening" then dayStart + 84600000 else dayStart + 81000000

/-- `TrainSimulationEngine.createTrainsForRoute`: one instance per dispatched
departure per direction, keeping only departures at or before `now`; backward
departures are phase-shifted by `⌊frequency / 2⌋` minutes.  The source pushes the
forward then the backward train of each index, which the `List.flatMap` reproduces. -/
def createTrainsForRoute (stationsData : List Station) (routes : List Route)
    (route : Route) (dayStart now : ℤ) : List Train :=
  let serviceStart := serviceStartOf route dayStart
  let serviceEnd := serviceEndOf route dayStart
  if now < serviceStart ∨ serviceEnd < now then []
  else
    let minutesSinceStart := jsFloorDiv (now - serviceStart) 60000
    let trainCount := jsCeilDiv minutesSinceStart route.frequency
    (List.range trainCount.toNat).flatMap (fun i =>
      let forwardDepartureTime := serviceStart + (i : ℤ) * route.frequency * 60000
      let backwardDepartureTime :=
        serviceStart + ((i : ℤ) * route.frequency + jsFloorDiv route.frequency 2) * 60000
      (if forwardDepartureTime ≤ now then
        (createTrain stationsData routes (mkTrainId route.id .forward i) route.id .forward
          forwardDepartureTime).toList
       else []) ++
      (if backwardDepartureTime ≤ now then
        (createTrain stationsData routes (mkTrainId route.id .backward i) route.id .backward
          backwardDepartureTime).toList
       else []))

/-- The published per-tick position record (`TrainPosition` in
`trainSimulation.ts`).  The nested `currentSegment` station objects are flattened
to their ids; the station records themselves are display data resolved by the same
lookups that gate the `some` branch of `calculateSingleTrainPosition`. -/
structure TrainPosition where
  trainId : String
  routeId : String
  coordinates : ℚ × ℚ
  progress : ℚ
  fromStationId : String
  toStationId : String
  direction : Direction
  delay : ℤ
deriving DecidableEq

/-- `interpolateCoordinates`: linear interpolation between two station coordinates. -/
def interpolateCoordinates (f t : ℚ × ℚ) (progress : ℚ) : ℚ × ℚ :=
  (f.1 + (t.1 - f.1) * progress, f.2 + (t.2 - f.2) * progress)

/-- The per-direction segment travel times of a station sequence: the loop in
`calculateSingleTrainPosition` reads `getInterStationTime` of each consecutive pair. -/
def segmentTimes (times : List InterStationTime) (ordered : List String) : List ℤ :=
  (adjPairs ordered).map (fun p => getInterStationTime times p.1 p.2)

/-- The segment-search loop of `calculateSingleTrainPosition`: starting from segment
index `i` with accumulated time `acc`, return the index of the segment containing
`elapsed` together with the accumulated time before it; when `elapsed` lies past
every segment the returned index is one past the last segment. -/
def findSegmentAux (elapsed : ℤ) (i : ℕ) (acc : ℤ) : List ℤ → ℕ × ℤ
  | [] => (i, acc)
  | t :: rest =>
    if elapsed < acc + t then (i, acc) else findSegmentAux elapsed (i + 1) (acc + t) rest

/-- Entry point of the segment-search loop (index 0, accumulated time 0). -/
def findSegment (elapsed : ℤ) (segs : List ℤ) : ℕ × ℤ :=
  findSegmentAux elapsed 0 0 segs

/-- The ordered station ids a train traverses, reversed for the backward direction. -/
def orderedStationsOf (route : Route) (dir : Direction) : List String :=
  match dir with
  | .forward => route.stations
  | .backward => route.stations.reverse

/-- `TrainSimulationEngine.calculateSingleTrainPosition`: elapsed seconds since
departure, segment search, clamped intra-segment progress, linear interpolation.
The two station lookups feeding `currentSegment` carry non-null assertions in the
source; their failure (impossible for complete station data) is modelled as `none`. -/
def calculateSingleTrainPosition (stationsData : List Station) (routes : List Route)
    (times : List InterStationTime) (train : Train) (currentTime : ℤ) :
    Option TrainPosition :=
  match routes.find? (fun r => r.id == train.routeId) with
  | none => none
  | some route =>
    let elapsedTime := jsFloorDiv (currentTime - train.departureTime) 1000
    if elapsedTime < 0 then none
    else
      let orderedStations := orderedStationsOf route train.direction
      let segs := segmentTimes times orderedStations
      let found := findSegment elapsedTime segs
      if segs.length ≤ found.1 then none
      else
        let fromStationId := orderedStations.getD found.1 ""
        let toStationId := orderedStations.getD (found.1 + 1) ""
        match stationsData.find? (fun s => s.id == fromStationId),
              stationsData.find? (fun s => s.id == toStationId) with
        | some fromStation, some toStation =>
          let segmentTime := getInterStationTime times fromStationId toStationId
          let timeInCurrentSegment := elapsedTime - found.2
          let progress : ℚ :=
            max 0 (min ((timeInCurrentSegment : ℚ) / (segmentTime : ℚ)) 1)
          some { trainId := train.id, routeId := train.routeId,
                 coordinates :=
                   interpolateCoordinates fromStation.coordinates toStation.coordinates
                     progress,
                 progress := progress,
                 fromStationId := fromStationId, toStationId := toStationId,
                 direction := train.direction, delay := 0 }
        | _, _ => none

/-! ## The shipped static data (`src/data/stations.ts`, `src/data/routes.ts`)

Transcribed verbatim; coordinates and distances are exact decimal rationals. -/

set_option maxHeartbeats 1000000 in
def raydaStations : List Station := [
  ⟨"65", "Sirkeci", (28.9770540249921, 41.013545950893), 23.38⟩,
  ⟨"67", "Ayrılıkçeşme", (29.0301410162619, 41.000142555216), 29.34⟩,
  ⟨"68", "Üsküdar", (29.0137932912137, 41.025756685677), 27.47⟩,
  ⟨"234", "Yenikapı", (28.9495799493274, 41.004779309437), 20.38⟩,
  ⟨"237", "Kazlıçeşme", (28.9168834698481, 40.992686765903), 16.93⟩,
  ⟨"265", "Zeytinburnu", (28.9054462645074, 40.9858745807536), 15.83⟩,
  ⟨"266", "Yenimahalle", (28.8810507091285, 40.9817390460176), 13.34⟩,
  ⟨"267", "Bakırköy", (28.8723187722271, 40.9802655959296), 12.48⟩,
  ⟨"268", "Ataköy", (28.8562250170243, 40.9802168588159), 10.96⟩,
  ⟨"269", "Yeşilyurt", (28.8372823708532, 40.9654758614525), 8.64⟩,
  ⟨"270", "Yeşilköy", (28.8248828840576, 40.9626579916415), 7.36⟩,
  ⟨"271", "Florya Akvaryum", (28.7970462624679, 40.9677718222994), 4.77⟩,
  ⟨"272", "Florya", (28.7874770796778, 40.9729629167419), 3.79⟩,
  ⟨"273", "Küçükçekmece", (28.7729538518441, 40.9885301752163), 2.88⟩,
  ⟨"274", "Mustafa Kemal", (28.7739502215087, 41.0062789769983), 1.19⟩,
  ⟨"275", "Halkalı", (28.7664382511562, 41.0178427940864), 0.00⟩,
  ⟨"276", "Tuzla", (29.3223601331439, 40.8299524360082), 62.99⟩,
  ⟨"277", "İçmeler", (29.3000611746553, 40.8456508904887), 60.31⟩,
  ⟨"278", "Aydıntepe", (29.2931664014893, 40.8522885876792), 59.56⟩,
  ⟨"279", "Güzelyalı", (29.2834955974544, 40.8568547122426), 58.50⟩,
  ⟨"280", "Tersane", (29.2733636213888, 40.8609774863764), 57.40⟩,
  ⟨"281", "Kaynarca", (29.2560336339024, 40.8713029434192), 55.59⟩,
  ⟨"282", "Pendik", (29.2316720558041, 40.8802067715332), 52.96⟩,
  ⟨"283", "Yunus", (29.2105353314047, 40.8845046267267), 50.67⟩,
  ⟨"284", "Kartal", (29.1911901410005, 40.8886128831676), 48.57⟩,
  ⟨"285", "Başak", (29.1773527136764, 40.8905590782827), 47.08⟩,
  ⟨"286", "Atalar", (29.1694542074836, 40.8985880196095), 46.27⟩,
  ⟨"287", "Cevizli", (29.1560454699434, 40.9100151224824), 44.94⟩,
  ⟨"288", "Maltepe", (29.1335259970986, 40.9206463835831), 42.53⟩,
  ⟨"289", "Süreyya Plajı", (29.1242047148349, 40.9268299858791), 41.53⟩,
  ⟨"290", "İdealtepe", (29.1142558579521, 40.9378068714961), 40.46⟩,
  ⟨"291", "Küçükyalı", (29.1068216034401, 40.9462573975736), 39.71⟩,
  ⟨"292", "Bostancı", (29.0950591485625, 40.9538001484529), 38.46⟩,
  ⟨"293", "Suadiye", (29.0844186912134, 40.9604752408322), 37.33⟩,
  ⟨"294", "Erenköy", (29.0764726675955, 40.9714092751695), 36.49⟩,
  ⟨"295", "Göztepe", (29.0625591735035, 40.9791648388466), 34.93⟩,
  ⟨"296", "Feneryolu", (29.0490084626684, 40.9786961509793), 33.45⟩,
  ⟨"297", "Söğütlüçeşme", (29.0376279458605, 40.990902337839), 32.25⟩,
  ⟨"298", "Çayırova", (29.3475125745724, 40.8104982886506), 65.81⟩,
  ⟨"299", "Fatih", (29.3639258834218, 40.8076260643992), 67.64⟩,
  ⟨"300", "Osmangazi", (29.3800141019468, 40.7992722879167), 69.42⟩,
  ⟨"301", "Darıca", (29.3918381727911, 40.7914192062897), 70.72⟩,
  ⟨"302", "Gebze", (29.4095634828195, 40.7842492519915), 72.70⟩
]

set_option maxHeartbeats 1000000 in
def marmarayFull : Route :=
  ⟨"marmaray-full", "Marmaray Full Line", ("275", "302"), 15,
   ["275", "274", "273", "272", "271", "270", "269", "268", "267", "266", "265", "237", "234", "65", "68", "67", "297", "296", "295", "294", "293", "292", "291", "290", "289", "288", "287", "286", "285", "284", "283", "282", "281", "280", "279", "278", "277", "276", "298", "299", "300", "301", "302"],
   "#0066CC"⟩

set_option maxHeartbeats 1000000 in
def marmarayShort : Route :=
  ⟨"marmaray-short", "Marmaray Ataköy-Pendik", ("268", "282"), 8,
   ["268", "267", "266", "265", "237", "234", "65", "68", "67", "297", "296", "295", "294", "293", "292", "291", "290", "289", "288", "287", "286", "285", "284", "283", "282"],
   "#0099FF"⟩

set_option maxHeartbeats 1000000 in
def marmarayEvening : Route :=
  ⟨"marmaray-evening", "Marmaray Evening Pendik-Zeytinburnu", ("282", "265"), 8,
   ["282", "283", "284", "285", "286", "287", "288", "289", "290", "291", "292", "293", "294", "295", "296", "297", "67", "68", "65", "234", "237", "265"],
   "#FF6600"⟩

def raydaRoutes : List Route := [marmarayFull, marmarayShort, marmarayEvening]

set_option maxHeartbeats 1000000 in
def raydaInterStationTimes : List InterStationTime := [
  ⟨"275", "274", 180⟩,
  ⟨"274", "273", 120⟩,
  ⟨"273", "272", 180⟩,
  ⟨"272", "271", 120⟩,
  ⟨"271", "270", 180⟩,
  ⟨"270", "269", 120⟩,
  ⟨"269", "268", 120⟩,
  ⟨"268", "267", 180⟩,
  ⟨"267", "266", 120⟩,
  ⟨"266", "265", 180⟩,
  ⟨"265", "237", 120⟩,
  ⟨"237", "234", 240⟩,
  ⟨"234", "65", 180⟩,
  ⟨"65", "68", 240⟩,
  ⟨"68", "67", 240⟩,
  ⟨"67", "297", 180⟩,
  ⟨"297", "296", 120⟩,
  ⟨"296", "295", 120⟩,
  ⟨"295", "294", 120⟩,
  ⟨"294", "293", 180⟩,
  ⟨"293", "292", 120⟩,
  ⟨"292", "291", 180⟩,
  ⟨"291", "290", 120⟩,
  ⟨"290", "289", 120⟩,
  ⟨"289", "288", 120⟩,
  ⟨"288", "287", 180⟩,
  ⟨"287", "286", 120⟩,
  ⟨"286", "285", 120⟩,
  ⟨"285", "284", 120⟩,
  ⟨"284", "283", 180⟩,
  ⟨"283", "282", 180⟩,
  ⟨"282", "281", 180⟩,
  ⟨"281", "280", 120⟩,
  ⟨"280", "279", 120⟩,
  ⟨"279", "278", 120⟩,
  ⟨"278", "277", 120⟩,
  ⟨"277", "276", 180⟩,
  ⟨"276", "298", 180⟩,
  ⟨"298", "299", 180⟩,
  ⟨"299", "300", 120⟩,
  ⟨"300", "301", 120⟩,
  ⟨"301", "302", 120⟩,
  ⟨"274", "275", 180⟩,
  ⟨"273", "274", 120⟩,
  ⟨"272", "273", 180⟩,
  ⟨"271", "272", 120⟩,
  ⟨"270", "271", 180⟩,
  ⟨"269", "270", 120⟩,
  ⟨"268", "269", 120⟩,
  ⟨"267", "268", 180⟩,
  ⟨"266", "267", 120⟩,
  ⟨"265", "266", 180⟩,
  ⟨"237", "265", 120⟩,
  ⟨"234", "237", 240⟩,
  ⟨"65", "234", 180⟩,
  ⟨"68", "65", 240⟩,
  ⟨"67", "68", 240⟩,
  ⟨"297", "67", 180⟩,
  ⟨"296", "297", 120⟩,
  ⟨"295", "296", 120⟩,
  ⟨"294", "295", 120⟩,
  ⟨"293", "294", 180⟩,
  ⟨"292", "293", 120⟩,
  ⟨"291", "292", 180⟩,
  ⟨"290", "291", 120⟩,
  ⟨"289", "290", 120⟩,
  ⟨"288", "289", 120⟩,
  ⟨"287", "288", 180⟩,
  ⟨"286", "287", 120⟩,
  ⟨"285", "286", 120⟩,
  ⟨"284", "285", 120⟩,
  ⟨"283", "284", 180⟩,
  ⟨"282", "283", 180⟩,
  ⟨"281", "282", 180⟩,
  ⟨"280", "281", 120⟩,
  ⟨"279", "280", 120⟩,
  ⟨"278", "279", 120⟩,
  ⟨"277", "278", 120⟩,
  ⟨"276", "277", 180⟩,
  ⟨"298", "276", 180⟩,
  ⟨"299", "298", 180⟩,
  ⟨"300", "299", 120⟩,
  ⟨"301", "300", 120⟩,
  ⟨"302", "301", 120⟩
]

/-! ## Arrival prediction (`src/utils/timetableCalculations.ts`)

`TrainPosition.displayName` and the presentation-only fields `displayName`,
`routeName` and `color` of `ArrivalPrediction` are UI strings (the repository's
two snapshots of `TrainPosition` disagree on `displayName`); they are omitted here. -/

/-- An arrival prediction for one train at one station. -/
structure ArrivalPrediction where
  trainId : String
  arrivalTime : ℤ
  minutesAway : ℤ
  direction : Direction
  routeId : String
  finalDestination : String
  confidence : ℚ
deriving DecidableEq

/-- `calculateTravelTime`: remaining seconds from a train's current position to the
target station index, with the multiplicative confidence decay, or `none` when the
train is moving away from (or already past) the target station. -/
def calculateTravelTime (times : List InterStationTime) (route : Route)
    (trainPos : TrainPosition) (currentFromIndex currentToIndex targetStationIndex : ℤ) :
    Option (ℚ × ℚ) :=
  match trainPos.direction with
  | .forward =>
    if targetStationIndex ≤ currentFromIndex then none
    else
      let remainingInCurrentSegment := (1 - trainPos.progress) *
        ((getInterStationTime times (route.stations.getD currentFromIndex.toNat "")
          (route.stations.getD currentToIndex.toNat "") : ℤ) : ℚ)
      let segIdxs := idxRangeAsc currentToIndex targetStationIndex
      let timeToStation := remainingInCurrentSegment +
        (segIdxs.map (fun i =>
          ((getInterStationTime times (route.stations.getD i.toNat "")
            (route.stations.getD (i + 1).toNat "") : ℤ) : ℚ))).sum
      some (timeToStation, (0.9 : ℚ) * (0.95 : ℚ) ^ segIdxs.length)
  | .backward =>
    if currentFromIndex ≤ targetStationIndex then none
    else
      let remainingInCurrentSegment := trainPos.progress *
        ((getInterStationTime times (route.stations.getD currentFromIndex.toNat "")
          (route.stations.getD currentToIndex.toNat "") : ℤ) : ℚ)
      let segIdxs := (idxRangeAsc targetStationIndex currentFromIndex).reverse
      let timeToStation := remainingInCurrentSegment +
        (segIdxs.map (fun i =>
          ((getInterStationTime times (route.stations.getD (i + 1).toNat "")
            (route.stations.getD i.toNat "") : ℤ) : ℚ))).sum
      some (timeToStation, (0.9 : ℚ) * (0.95 : ℚ) ^ segIdxs.length)

/-- `calculateTrainArrival`: arrival prediction for one train at one station, or
`none` when the train does not serve, has passed, or is more than 45 minutes from
the station. -/
def calculateTrainArrival (stationsData : List Station) (times : List InterStationTime)
    (stationId : String) (trainPos : TrainPosition) (route : Route) (currentTime : ℤ) :
    Option ArrivalPrediction :=
  let stationIndex := jsIndexOf route.stations stationId
  if stationIndex = -1 then none
  else
    let currentFromIndex := jsIndexOf route.stations trainPos.fromStationId
    let currentToIndex := jsIndexOf route.stations trainPos.toStationId
    if currentFromIndex = -1 ∨ currentToIndex = -1 then none
    else
      match calculateTravelTime times route trainPos currentFromIndex currentToIndex
          stationIndex with
      | none => none
      | some (timeToStation, confidence) =>
        if 2700 < timeToStation then none
        else
          let finalDestinationId := match trainPos.direction with
            | .forward => route.termini.2
            | .backward => route.termini.1
          some { trainId := trainPos.trainId,
                 arrivalTime := jsTrunc ((currentTime : ℚ) + timeToStation * 1000),
                 minutesAway := max 0 (jsRound (timeToStation / 60)),
                 direction := trainPos.direction, routeId := trainPos.routeId,
                 finalDestination :=
                   ((stationsData.find? (fun s => s.id == finalDestinationId)).map
                     (fun s => s.name)).getD "Unknown",
                 confidence := confidence }

/-- Stable insertion of one prediction into a list sorted by ascending arrival time. -/
def insertByArrival (a : ArrivalPrediction) : List ArrivalPrediction → List ArrivalPrediction
  | [] => [a]
  | b :: rest =>
    if b.arrivalTime ≤ a.arrivalTime then b :: insertByArrival a rest
    else a :: b :: rest

/-- The `sort((a, b) => a.arrivalTime.getTime() - b.arrivalTime.getTime())` call,
modelled as a stable insertion sort by ascending arrival time. -/
def sortByArrival : List ArrivalPrediction → List ArrivalPrediction
  | [] => []
  | a :: rest => insertByArrival a (sortByArrival rest)

/-- `calculateStationArrivals`: predictions of every approaching train, sorted by
arrival time and truncated to `maxArrivals` (the source default is 4).  The
source reads `new Date()` internally; that clock is the `currentTime` parameter. -/
def calculateStationArrivals (stationsData : List Station) (routes : List Route)
    (times : List InterStationTime) (stationId : String)
    (trainPositions : List TrainPosition) (maxArrivals : ℕ) (currentTime : ℤ) :
    List ArrivalPrediction :=
  match stationsData.find? (fun s => s.id == stationId) with
  | none => []
  | some _ =>
    let arrivals := trainPositions.filterMap (fun tp =>
      (routes.find? (fun r => r.id == tp.routeId)).bind (fun route =>
        calculateTrainArrival stationsData times stationId tp route currentTime))
    (sortByArrival arrivals).take maxArrivals

/-! ## Service schedules (`src/utils/scheduleCalculator.ts`) -/

/-- The record returned by `getRouteSchedule`. -/
structure RouteScheduleInfo where
  serviceStart : ℤ
  serviceEnd : ℤ
  frequency : ℤ
  isActive : Bool
  nextServiceStart : Option ℤ
deriving DecidableEq

/-- `getRouteSchedule`: today's service window, whether it is active at
`currentTime`, and the next window start otherwise (tomorrow's start when the
window has already ended). -/
def getRouteSchedule (route : Route) (dayStart currentTime : ℤ) : RouteScheduleInfo :=
  let serviceStart := serviceStartOf route dayStart
  let serviceEnd := serviceEndOf route dayStart
  let isActive := decide (serviceStart ≤ currentTime ∧ currentTime ≤ serviceEnd)
  { serviceStart, serviceEnd, frequency := route.frequency, isActive,
    nextServiceStart :=
      if isActive then none
      else if currentTime < serviceStart then some serviceStart
      else some (serviceStart + 86400000) }

/-- `calculateStationOffset`: estimated minutes from the route start (in the travel
direction) to a station, at 2 minutes per station. -/
def calculateStationOffset (stationId : String) (route : Route) (dir : Direction) : ℤ :=
  let stationIndex := jsIndexOf route.stations stationId
  if stationIndex = -1 then 0
  else
    let startIndex : ℤ := match dir with
      | .forward => 0
      | .backward => (route.stations.length : ℤ) - 1
    if stationIndex = startIndex then 0
    else
      (match dir with
        | .forward => stationIndex
        | .backward => (route.stations.length : ℤ) - 1 - stationIndex) * 2

/-- `calculateNextFrequencyDeparture`: the next frequency-aligned slot after
`serviceStart` (shifted by the station offset), pushed one headway later when the
computed slot is at or before `currentTime`. -/
def calculateNextFrequencyDeparture (fromStationId : String) (route : Route)
    (dir : Direction) (serviceStart frequency currentTime : ℤ) : ℤ :=
  let stationOffset := calculateStationOffset fromStationId route dir
  let minutesSinceStart := jsFloorDiv (currentTime - serviceStart) 60000
  let nextSlot := jsCeilDiv minutesSinceStart frequency * frequency
  let nextDeparture := serviceStart + (nextSlot + stationOffset) * 60000
  if nextDeparture ≤ currentTime then nextDeparture + frequency * 60000 else nextDeparture

/-- `calculateServiceStartDeparture`: window start plus the station offset. -/
def calculateServiceStartDeparture (fromStationId : String) (route : Route)
    (dir : Direction) (serviceStart : ℤ) : ℤ :=
  serviceStart + calculateStationOffset fromStationId route dir * 60000

/-- `generateScheduledTrainNumber`: route prefix, zero-padded hour and the
tens-of-minutes digit of the departure time. -/
def generateScheduledTrainNumber (routeId : String) (dayStart departureTime : ℤ) : String :=
  let hour := jsFloorDiv (departureTime - dayStart) 3600000 % 24
  let minute := jsFloorDiv (departureTime - dayStart) 60000 % 60
  let pfx := if routeId == "marmaray-full" then "M"
    else if routeId == "marmaray-short" then "S"
    else if routeId == "marmaray-evening" then "E"
    else "T"
  pfx ++ (if hour < 10 then "0" ++ toString hour else toString hour) ++
    toString (jsFloorDiv minute 10) ++ "0"

/-- The record returned by `calculateScheduledDeparture`. -/
structure ScheduledDeparture where
  routeId : String
  departureTime : ℤ
  direction : Direction
  trainNumber : String
  estimatedArrival : ℤ
  totalJourneyMinutes : ℤ
  waitingMinutes : ℤ
deriving DecidableEq

/-- `calculateScheduledDeparture`: next frequency slot while the window is active,
or the next window start plus station offset otherwise.  `toStationId` is accepted
and ignored, as in the source. -/
def calculateScheduledDeparture (routes : List Route)
    (fromStationId toStationId routeId : String) (dir : Direction)
    (journeyTime dayStart currentTime : ℤ) : Option ScheduledDeparture :=
  match routes.find? (fun r => r.id == routeId) with
  | none => none
  | some route =>
    let schedule := getRouteSchedule route dayStart currentTime
    let dep? : Option (ℤ × ℤ) :=
      if schedule.isActive then
        let nextDeparture := calculateNextFrequencyDeparture fromStationId route dir
          schedule.serviceStart schedule.frequency currentTime
        some (nextDeparture, max 0 (jsCeilDiv (nextDeparture - currentTime) 60000))
      else
        match schedule.nextServiceStart with
        | some s =>
          let nextDeparture := calculateServiceStartDeparture fromStationId route dir s
          some (nextDeparture, jsCeilDiv (nextDeparture - currentTime) 60000)
        | none => none
    dep?.map (fun d =>
      let estimatedArrival := d.1 + journeyTime * 1000
      { routeId := routeId, departureTime := d.1, direction := dir,
        trainNumber := generateScheduledTrainNumber routeId dayStart d.1,
        estimatedArrival,
        totalJourneyMinutes := jsCeilDiv (estimatedArrival - currentTime) 60000,
        waitingMinutes := d.2 })

/-! ## Journey planning (`src/utils/journeyPlanner.ts`) -/

/-- The `nextDeparture` payload of a `JourneyPlan` (`displayName` omitted, see above). -/
structure NextDeparture where
  trainId : String
  departureTime : ℤ
  arrivalTime : ℤ
  minutesToDeparture : ℤ
  totalJourneyMinutes : ℤ
  isScheduled : Bool
  waitingMinutes : Option ℤ
deriving DecidableEq

/-- `findNextDeparture`: the soonest suitable live train, falling back to the
schedule projection.  The source consults `new Date()` inside
`calculateStationArrivals` and the `departureTime` option here; both clocks are
the single `departureTime` parameter. -/
def findNextDeparture (stationsData : List Station) (routes : List Route)
    (times : List InterStationTime) (fromStationId toStationId routeId : String)
    (dir : Direction) (trainPositions : List TrainPosition)
    (dayStart departureTime maxWaitTime journeyTime : ℤ) : Option NextDeparture :=
  let arrivals := calculateStationArrivals stationsData routes times fromStationId
    trainPositions 10 departureTime
  let suitableTrains := arrivals.filter (fun a =>
    a.routeId == routeId && decide (a.direction = dir) &&
      decide (a.minutesAway ≤ maxWaitTime))
  match suitableTrains with
  | nextTrain :: _ =>
    some { trainId := nextTrain.trainId,
           departureTime := nextTrain.arrivalTime,
           arrivalTime := nextTrain.arrivalTime + journeyTime * 1000,
           minutesToDeparture := nextTrain.minutesAway,
           totalJourneyMinutes := jsCeilDiv (journeyTime + nextTrain.minutesAway * 60) 60,
           isScheduled := false, waitingMinutes := none }
  | [] =>
    (calculateScheduledDeparture routes fromStationId toStationId routeId dir
        journeyTime dayStart departureTime).map (fun sd =>
      { trainId := "scheduled-" ++ sd.trainNumber,
        departureTime := sd.departureTime, arrivalTime := sd.estimatedArrival,
        minutesToDeparture := sd.waitingMinutes,
        totalJourneyMinutes := sd.totalJourneyMinutes,
        isScheduled := true, waitingMinutes := some sd.waitingMinutes })

/-- `findConnectingRoute`: the first route whose station list contains both ids,
with the travel direction and both indices. -/
def findConnectingRoute (routes : List Route) (fromStationId toStationId : String) :
    Option (Route × Direction × ℤ × ℤ) :=
  routes.findSome? (fun route =>
    let fromIndex := jsIndexOf route.stations fromStationId
    let toIndex := jsIndexOf route.stations toStationId
    if fromIndex ≠ -1 ∧ toIndex ≠ -1 then
      some (route, (if fromIndex < toIndex then Direction.forward else Direction.backward),
        fromIndex, toIndex)
    else none)

/-- `getJourneyStations`: the station records from `fromIndex` to `toIndex`
inclusive, walking the route forward or backward; ids whose station record is
missing are skipped, as in the source. -/
def getJourneyStations (stationsData : List Station) (route : Route) (dir : Direction)
    (fromIndex toIndex : ℤ) : List Station :=
  let idxs : List ℤ := match dir with
    | .forward => idxRangeAsc fromIndex (toIndex + 1)
    | .backward => (idxRangeAsc toIndex (fromIndex + 1)).reverse
  idxs.filterMap (fun i => stationsData.find? (fun s => s.id == route.stations.getD i.toNat ""))

/-- `calculateJourneyTime`: seconds summed over consecutive station pairs. -/
def calculateJourneyTime (times : List InterStationTime) : List Station → ℤ
  | a :: b :: rest =>
    getInterStationTime times a.id b.id + calculateJourneyTime times (b :: rest)
  | _ => 0

/-- `calculateJourneyDistance`: absolute difference of the `distanceFromStart`
of the last and first journey stations, in km. -/
def calculateJourneyDistance (journeyStations : List Station) : ℚ :=
  if journeyStations.length < 2 then 0
  else |(journeyStations.getLastD dummyStation).distanceFromStart -
        (journeyStations.headD dummyStation).distanceFromStart|

/-- A planned journey between two stations. -/
structure JourneyPlan where
  fromStation : Station
  toStation : Station
  route : Route
  direction : Direction
  totalTime : ℤ
  totalDistance : ℚ
  stationCount : ℤ
  stations : List Station
  nextDeparture : Option NextDeparture
deriving DecidableEq

/-- `calculateJourney`: validates both stations, finds the connecting route and
direction, sums time and distance over the station slice and resolves the next
departure (source defaults: `departureTime = now`, `maxWaitTime = 30`). -/
def calculateJourney (stationsData : List Station) (routes : List Route)
    (times : List InterStationTime) (fromStationId toStationId : String)
    (trainPositions : List TrainPosition) (dayStart departureTime maxWaitTime : ℤ) :
    Option JourneyPlan :=
  match stationsData.find? (fun s => s.id == fromStationId),
        stationsData.find? (fun s => s.id == toStationId) with
  | some fromStation, some toStation =>
    if fromStation.id == toStation.id then none
    else
      match findConnectingRoute routes fromStationId toStationId with
      | none => none
      | some rdft =>
        let route := rdft.1
        let dir := rdft.2.1
        let journeyStations := getJourneyStations stationsData route dir rdft.2.2.1 rdft.2.2.2
        let totalTime := calculateJourneyTime times journeyStations
        some { fromStation, toStation, route, direction := dir,
               totalTime,
               totalDistance := calculateJourneyDistance journeyStations,
               stationCount := (journeyStations.length : ℤ) - 1,
               stations := journeyStations,
               nextDeparture := findNextDeparture stationsData routes times fromStationId
                 toStationId route.id dir trainPositions dayStart departureTime maxWaitTime
                 totalTime }
  | _, _ => none

/-! ## Geometry mapping (`src/utils/pathfinder.ts`, `SimpleRouteCalculator`)

The source measures distances with the Haversine formula (`calculateDistance`,
radius 6371000 m), a transcendental function; the embedding abstracts it as a
`dist` parameter, so every theorem below holds for the Haversine metric in
particular.  Track ingestion (`processTrackGeometry`) is the identity on the
retained polylines and is not re-modelled. -/

/-- A `{lng, lat}` coordinate pair. -/
structure Coordinate where
  lng : ℚ
  lat : ℚ
deriving DecidableEq

/-- A retained track polyline. -/
structure TrackSegment where
  id : String
  coordinates : List Coordinate
  length : ℚ
deriving DecidableEq

/-- One mapped route segment between consecutive stations. -/
structure RouteSegment where
  fromStationId : String
  toStationId : String
  trackPath : List Coordinate
  distance : ℚ
  travelTime : ℤ
deriving DecidableEq

/-- The cached per-route geometry (`RouteInfo` in the source). -/
structure RouteInfo where
  routeId : String
  segments : List RouteSegment
  totalDistance : ℚ
  totalTravelTime : ℤ
deriving DecidableEq

/-- `calculatePathLength`: arc length of a polyline as the sum of the distances
between consecutive points. -/
def calculatePathLength (dist : Coordinate → Coordinate → ℚ) : List Coordinate → ℚ
  | a :: b :: rest => dist a b + calculatePathLength dist (b :: rest)
  | _ => 0

/-- A station's `{lng, lat}` coordinate. -/
def stationCoordinate (s : Station) : Coordinate := ⟨s.coordinates.1, s.coordinates.2⟩

/-- One iteration of the best-polyline search in `findTrackPath`: score the
polyline in both orientations by inverse endpoint distance and keep the best.
The endpoint reads (`coordinates[0]`, `coordinates[length - 1]`) are modelled with
a zero default; retained polylines always have at least two points. -/
def trackScoreStep (dist : Coordinate → Coordinate → ℚ) (fromCoord toCoord : Coordinate)
    (best : ℚ × List Coordinate) (segment : TrackSegment) : ℚ × List Coordinate :=
  let startDist := dist fromCoord (segment.coordinates.headD ⟨0, 0⟩)
  let endDist := dist toCoord (segment.coordinates.getLastD ⟨0, 0⟩)
  let startDistRev := dist fromCoord (segment.coordinates.getLastD ⟨0, 0⟩)
  let endDistRev := dist toCoord (segment.coordinates.headD ⟨0, 0⟩)
  let score1 := 1 / (startDist + endDist + 1)
  let score2 := 1 / (startDistRev + endDistRev + 1)
  let best1 := if best.1 < score1 then (score1, segment.coordinates) else best
  if best1.1 < score2 then (score2, segment.coordinates.reverse) else best1

/-- `findTrackPath`: best-scoring polyline over all retained track segments, or
the straight two-point line when nothing scores at or above the `0.00001`
confidence threshold. -/
def findTrackPath (dist : Coordinate → Coordinate → ℚ) (trackSegments : List TrackSegment)
    (fromStation toStation : Station) : List Coordinate :=
  let fromCoord := stationCoordinate fromStation
  let toCoord := stationCoordinate toStation
  let best := trackSegments.foldl (trackScoreStep dist fromCoord toCoord) (-1, [])
  if best.2 = [] ∨ best.1 < 1 / 100000 then [fromCoord, toCoord] else best.2

/-- `SimpleRouteCalculator.calculateRoutePattern`: a mapped segment per
consecutive station pair (pairs with a missing station record are skipped with a
warning), with totals accumulated over the produced segments.  The source's
`RouteInfo | null` signature notwithstanding, every path returns a `RouteInfo`. -/
def calculateRoutePattern (dist : Coordinate → Coordinate → ℚ)
    (trackSegments : List TrackSegment) (stationsData : List Station)
    (times : List InterStationTime) (route : Route) : RouteInfo :=
  let segments := (adjPairs route.stations).filterMap (fun p =>
    match stationsData.find? (fun s => s.id == p.1),
          stationsData.find? (fun s => s.id == p.2) with
    | some fromStation, some toStation =>
      let trackPath := findTrackPath dist trackSegments fromStation toStation
      some { fromStationId := p.1, toStationId := p.2, trackPath := trackPath,
             distance := calculatePathLength dist trackPath,
             travelTime := getInterStationTime times p.1 p.2 }
    | _, _ => none)
  { routeId := route.id, segments := segments,
    totalDistance := (segments.map (fun s => s.distance)).sum,
    totalTravelTime := (segments.map (fun s => s.travelTime)).sum }


/-! ## Shared lemmas -/

/-- Every travel-time lookup is positive when the table's entries are. -/
lemma getInterStationTime_pos {times : List InterStationTime}
    (htimes : ∀ e ∈ times, 0 < e.time) (f t : String) :
    0 < getInterStationTime times f t := by
  unfold getInterStationTime
  split
  · next e he => exact htimes e (List.mem_of_find?_eq_some he)
  · norm_num

/-- Every per-direction segment time is positive when the table's entries are. -/
lemma segmentTimes_pos {times : List InterStationTime}
    (htimes : ∀ e ∈ times, 0 < e.time) (ordered : List String) :
    ∀ t ∈ segmentTimes times ordered, 0 < t := by
  intro t ht
  simp only [segmentTimes, List.mem_map] at ht
  obtain ⟨p, -, rfl⟩ := ht
  exact getInterStationTime_pos htimes p.1 p.2

lemma adjPairs_length {α : Type} (l : List α) : (adjPairs l).length = l.length - 1 := by
  simp [adjPairs, List.length_zip, List.length_tail]

lemma segmentTimes_length (times : List InterStationTime) (ordered : List String) :
    (segmentTimes times ordered).length = ordered.length - 1 := by
  simp [segmentTimes, adjPairs_length]

lemma findSegmentAux_fst_le (e : ℤ) :
    ∀ (segs : List ℤ) (i : ℕ) (acc : ℤ), (findSegmentAux e i acc segs).1 ≤ i + segs.length := by
  intro segs
  induction segs with
  | nil => intro i acc; simp [findSegmentAux]
  | cons t rest ih =>
    intro i acc
    simp only [findSegmentAux, List.length_cons]
    split
    · simp
    · have h := ih (i + 1) (acc + t)
      omega

lemma findSegmentAux_fst_ge (e : ℤ) :
    ∀ (segs : List ℤ) (i : ℕ) (acc : ℤ), i ≤ (findSegmentAux e i acc segs).1 := by
  intro segs
  induction segs with
  | nil => intro i acc; simp [findSegmentAux]
  | cons t rest ih =>
    intro i acc
    simp only [findSegmentAux]
    split
    · simp
    · have h := ih (i + 1) (acc + t)
      omega

/-- The segment search walks past every segment exactly when the elapsed time is at
least the total (for positive segment times, starting from an accumulator not past
the elapsed time). -/
lemma findSegmentAux_completes_iff (e : ℤ) :
    ∀ (segs : List ℤ), (∀ t ∈ segs, 0 < t) → ∀ (i : ℕ) (acc : ℤ), acc ≤ e →
      ((findSegmentAux e i acc segs).1 = i + segs.length ↔ acc + segs.sum ≤ e) := by
  intro segs
  induction segs with
  | nil =>
    intro _ i acc hacc
    simpa [findSegmentAux] using hacc
  | cons t rest ih =>
    intro hpos i acc hacc
    have hrest : ∀ x ∈ rest, 0 < x := fun x hx => hpos x (List.mem_cons_of_mem _ hx)
    have hrsum : 0 ≤ rest.sum := List.sum_nonneg (fun x hx => le_of_lt (hrest x hx))
    have ht : 0 < t := hpos t (List.mem_cons_self _ _)
    simp only [findSegmentAux, List.length_cons, List.sum_cons]
    split
    · next hlt =>
      refine iff_of_false (by simp only [Prod.fst]; omega) (by omega)
    · next hge =>
      have hih := ih hrest (i + 1) (acc + t) (by omega)
      constructor
      · intro h
        have := hih.mp (by omega)
        omega
      · intro h
        have := hih.mpr (by omega)
        omega

lemma getD_mem {α : Type} (l : List α) (n : ℕ) (d : α) (h : n < l.length) :
    l.getD n d ∈ l := by
  rw [List.getD_eq_getElem l d h]
  exact List.getElem_mem h

lemma findSegment_completes_iff (e : ℤ) (segs : List ℤ) (hpos : ∀ t ∈ segs, 0 < t)
    (he0 : 0 ≤ e) : segs.length ≤ (findSegment e segs).1 ↔ segs.sum ≤ e := by
  have hle := findSegmentAux_fst_le e segs 0 0
  have hiff := findSegmentAux_completes_iff e segs hpos 0 0 he0
  rw [findSegment]
  constructor
  · intro h
    have := hiff.mp (by omega)
    omega
  · intro h
    have := hiff.mpr (by omega)
    omega

lemma findSegmentAux_fst_mono {e1 e2 : ℤ} (h12 : e1 ≤ e2) :
    ∀ (segs : List ℤ) (i : ℕ) (acc : ℤ),
      (findSegmentAux e1 i acc segs).1 ≤ (findSegmentAux e2 i acc segs).1 := by
  intro segs
  induction segs with
  | nil => intro i acc; simp [findSegmentAux]
  | cons t rest ih =>
    intro i acc
    by_cases h1 : e1 < acc + t
    · by_cases h2 : e2 < acc + t
      · simp [findSegmentAux, h1, h2]
      · have hge := findSegmentAux_fst_ge e2 rest (i + 1) (acc + t)
        simp only [findSegmentAux, if_pos h1, if_neg h2]
        omega
    · have h2 : ¬ e2 < acc + t := by omega
      simp only [findSegmentAux, if_neg h1, if_neg h2]
      exact ih (i + 1) (acc + t)

lemma findSegmentAux_snd_eq_of_fst_eq {e1 e2 : ℤ} (h12 : e1 ≤ e2) :
    ∀ (segs : List ℤ) (i : ℕ) (acc : ℤ),
      (findSegmentAux e1 i acc segs).1 = (findSegmentAux e2 i acc segs).1 →
      (findSegmentAux e1 i acc segs).2 = (findSegmentAux e2 i acc segs).2 := by
  intro segs
  induction segs with
  | nil => intro i acc _; rfl
  | cons t rest ih =>
    intro i acc hfst
    by_cases h1 : e1 < acc + t
    · by_cases h2 : e2 < acc + t
      · simp [findSegmentAux, h1, h2]
      · exfalso
        have hge := findSegmentAux_fst_ge e2 rest (i + 1) (acc + t)
        simp only [findSegmentAux, if_pos h1, if_neg h2] at hfst
        omega
    · have h2 : ¬ e2 < acc + t := by omega
      simp only [findSegmentAux, if_neg h1, if_neg h2] at hfst ⊢
      exact ih (i + 1) (acc + t) hfst

lemma orderedStationsOf_subset (route : Route) (dir : Direction) :
    ∀ sid ∈ orderedStationsOf route dir, sid ∈ route.stations := by
  intro sid h
  cases dir with
  | forward => exact h
  | backward => exact (List.mem_reverse).mp h

/-- Early-exit branch of `calculateSingleTrainPosition`: a train that has not
yet departed has no position. -/
lemma calcSingle_none_of_neg (stationsData : List Station) (routes : List Route)
    (times : List InterStationTime) (train : Train) (currentTime : ℤ) (route : Route)
    (hroute : routes.find? (fun r => r.id == train.routeId) = some route)
    (hneg : jsFloorDiv (currentTime - train.departureTime) 1000 < 0) :
    calculateSingleTrainPosition stationsData routes times train currentTime = none := by
  simp [calculateSingleTrainPosition, hroute, if_pos hneg]

/-- Completion branch of `calculateSingleTrainPosition`: once the segment search
walks past the last segment the train is removed. -/
lemma calcSingle_none_of_complete (stationsData : List Station) (routes : List Route)
    (times : List InterStationTime) (train : Train) (currentTime : ℤ) (route : Route)
    (hroute : routes.find? (fun r => r.id == train.routeId) = some route)
    (he0 : ¬ jsFloorDiv (currentTime - train.departureTime) 1000 < 0)
    (hc : (segmentTimes times (orderedStationsOf route train.direction)).length ≤
      (findSegment (jsFloorDiv (currentTime - train.departureTime) 1000)
        (segmentTimes times (orderedStationsOf route train.direction))).1) :
    calculateSingleTrainPosition stationsData routes times train currentTime = none := by
  simp only [calculateSingleTrainPosition, hroute, if_neg he0, if_pos hc]

/-- Found-segment branch of `calculateSingleTrainPosition`: the produced record,
with the current segment's endpoints resolved. -/
lemma calcSingle_some_shape (stationsData : List Station) (routes : List Route)
    (times : List InterStationTime) (train : Train) (currentTime : ℤ) (route : Route)
    (e : ℤ) (segs : List ℤ)
    (hroute : routes.find? (fun r => r.id == train.routeId) = some route)
    (he : e = jsFloorDiv (currentTime - train.departureTime) 1000)
    (hsegs : segs = segmentTimes times (orderedStationsOf route train.direction))
    (hstations : ∀ sid ∈ route.stations, (stationsData.find? (fun s => s.id == sid)).isSome)
    (he0 : 0 ≤ e) (hlt : (findSegment e segs).1 < segs.length) :
    ∃ fs ts,
      stationsData.find? (fun s => s.id ==
        (orderedStationsOf route train.direction).getD (findSegment e segs).1 "") = some fs ∧
      stationsData.find? (fun s => s.id ==
        (orderedStationsOf route train.direction).getD ((findSegment e segs).1 + 1) "") = some ts ∧
      calculateSingleTrainPosition stationsData routes times train currentTime =
        some { trainId := train.id, routeId := train.routeId,
               coordinates := interpolateCoordinates fs.coordinates ts.coordinates
                 (max 0 (min (((e - (findSegment e segs).2 : ℤ) : ℚ) /
                   ((getInterStationTime times
                     ((orderedStationsOf route train.direction).getD (findSegment e segs).1 "")
                     ((orderedStationsOf route train.direction).getD
                       ((findSegment e segs).1 + 1) "") : ℤ) : ℚ)) 1)),
               progress := max 0 (min (((e - (findSegment e segs).2 : ℤ) : ℚ) /
                   ((getInterStationTime times
                     ((orderedStationsOf route train.direction).getD (findSegment e segs).1 "")
                     ((orderedStationsOf route train.direction).getD
                       ((findSegment e segs).1 + 1) "") : ℤ) : ℚ)) 1),
               fromStationId :=
                 (orderedStationsOf route train.direction).getD (findSegment e segs).1 "",
               toStationId :=
                 (orderedStationsOf route train.direction).getD ((findSegment e segs).1 + 1) "",
               direction := train.direction, delay := 0 } := by
  have hlen : segs.length = (orderedStationsOf route train.direction).length - 1 := by
    rw [hsegs, segmentTimes_length]
  have hfrom_mem : (orderedStationsOf route train.direction).getD (findSegment e segs).1 "" ∈
      orderedStationsOf route train.direction :=
    getD_mem _ _ _ (by omega)
  have hto_mem : (orderedStationsOf route train.direction).getD ((findSegment e segs).1 + 1) "" ∈
      orderedStationsOf route train.direction :=
    getD_mem _ _ _ (by omega)
  obtain ⟨fs, hfs⟩ := Option.isSome_iff_exists.mp
    (hstations _ (orderedStationsOf_subset route train.direction _ hfrom_mem))
  obtain ⟨ts, hts⟩ := Option.isSome_iff_exists.mp
    (hstations _ (orderedStationsOf_subset route train.direction _ hto_mem))
  refine ⟨fs, ts, hfs, hts, ?_⟩
  simp only [calculateSingleTrainPosition, hroute, ← he, ← hsegs, if_neg (not_lt.mpr he0),
    if_neg (not_le.mpr hlt), hfs, hts]

/-! ## C1 — position resolver returns `none` exactly outside the journey window -/

/-- C1: for every train instance and timestamp, `calculateSingleTrainPosition`
returns `none` exactly when the elapsed time since the instance's departure is
negative or at least the total journey time (the sum of the inter-station segment
times in the instance's direction of travel), and otherwise returns a position
whose `progress` satisfies `0 ≤ progress ≤ 1`. -/
theorem resolvePosition_none_iff_elapsed_outside_journey
    (stationsData : List Station) (routes : List Route) (times : List InterStationTime)
    (train : Train) (route : Route) (currentTime : ℤ)
    (hroute : routes.find? (fun r => r.id == train.routeId) = some route)
    (htimes : ∀ e ∈ times, 0 < e.time)
    (hstations : ∀ sid ∈ route.stations,
      (stationsData.find? (fun s => s.id == sid)).isSome) :
    (calculateSingleTrainPosition stationsData routes times train currentTime = none ↔
      jsFloorDiv (currentTime - train.departureTime) 1000 < 0 ∨
        (segmentTimes times (orderedStationsOf route train.direction)).sum ≤
          jsFloorDiv (currentTime - train.departureTime) 1000) ∧
    (∀ p, calculateSingleTrainPosition stationsData routes times train currentTime = some p →
      0 ≤ p.progress ∧ p.progress ≤ 1) := by
  have hpos : ∀ t ∈ segmentTimes times (orderedStationsOf route train.direction), 0 < t :=
    segmentTimes_pos htimes _
  by_cases hneg : jsFloorDiv (currentTime - train.departureTime) 1000 < 0
  · have hnone := calcSingle_none_of_neg stationsData routes times train currentTime route
      hroute hneg
    refine ⟨by rw [hnone]; exact iff_of_true rfl (Or.inl hneg), fun p hp => ?_⟩
    rw [hnone] at hp
    cases hp
  · by_cases hcomp : (segmentTimes times (orderedStationsOf route train.direction)).sum ≤
        jsFloorDiv (currentTime - train.departureTime) 1000
    · have hlen := (findSegment_completes_iff _ _ hpos (by omega)).mpr hcomp
      have hnone := calcSingle_none_of_complete stationsData routes times train currentTime
        route hroute hneg hlen
      refine ⟨by rw [hnone]; exact iff_of_true rfl (Or.inr hcomp), fun p hp => ?_⟩
      rw [hnone] at hp
      cases hp
    · have hlt : (findSegment (jsFloorDiv (currentTime - train.departureTime) 1000)
          (segmentTimes times (orderedStationsOf route train.direction))).1 <
          (segmentTimes times (orderedStationsOf route train.direction)).length := by
        by_contra hnot
        exact hcomp ((findSegment_completes_iff _ _ hpos (by omega)).mp (by omega))
      obtain ⟨fs, ts, hfs, hts, hsome⟩ := calcSingle_some_shape stationsData routes times
        train currentTime route _ _ hroute rfl rfl hstations (by omega) hlt
      refine ⟨by rw [hsome]; exact iff_of_false (by simp) (by omega), fun p hp => ?_⟩
      rw [hsome, Option.some_inj] at hp
      subst hp
      exact ⟨le_max_left _ _, max_le (by norm_num) (min_le_right _ _)⟩

/-- A concrete `marmaray-full` forward train instance departing at time 0,
used to instantiate theorems on the shipped data. -/
def sampleFullTrain : Train :=
  { id := "marmaray-full-forward-0", routeId := "marmaray-full",
    direction := Direction.forward, departureTime := 0,
    currentPosition := { fromStationId := "275", toStationId := "302", progress := 0,
                         coordinates := (0, 0) } }

/-- C1 witness: the theorem instantiated on the shipped data, a `marmaray-full`
forward train that departed one second ago. -/
theorem resolvePosition_none_iff_elapsed_outside_journey_witness :
    (calculateSingleTrainPosition raydaStations raydaRoutes raydaInterStationTimes
        sampleFullTrain 1000 = none ↔
      jsFloorDiv (1000 - sampleFullTrain.departureTime) 1000 < 0 ∨
        (segmentTimes raydaInterStationTimes
          (orderedStationsOf marmarayFull sampleFullTrain.direction)).sum ≤
          jsFloorDiv (1000 - sampleFullTrain.departureTime) 1000) ∧
    (∀ p, calculateSingleTrainPosition raydaStations raydaRoutes raydaInterStationTimes
        sampleFullTrain 1000 = some p → 0 ≤ p.progress ∧ p.progress ≤ 1) :=
  resolvePosition_none_iff_elapsed_outside_journey raydaStations raydaRoutes
    raydaInterStationTimes sampleFullTrain marmarayFull 1000 (by decide) (by decide)
    (by decide)

/-! ## C3 — monotonicity of the reported progress -/

lemma findSegment_lt_length_of (e : ℤ) (segs : List ℤ) (hpos : ∀ t ∈ segs, 0 < t)
    (he0 : 0 ≤ e) (hlt : e < segs.sum) : (findSegment e segs).1 < segs.length := by
  by_contra h
  have := (findSegment_completes_iff e segs hpos he0).mp (by omega)
  omega

lemma jsFloorDiv_mono {a b c : ℤ} (hc : 0 < c) (h : a ≤ b) :
    jsFloorDiv a c ≤ jsFloorDiv b c :=
  Int.ediv_le_ediv hc h

/-- C3 (amended): the `progress` field of `calculateSingleTrainPosition` is only
per-segment and resets at station boundaries, so it is the pair (current segment
index, progress) that is lexicographically non-decreasing in the query time: for a
fixed train instance and `now1 < now2` both within the journey window, either the
segment index strictly increases, or it is unchanged and the reported progress is
non-decreasing. -/
theorem progress_lexicographic_monotone
    (stationsData : List Station) (routes : List Route) (times : List InterStationTime)
    (train : Train) (route : Route) (now1 now2 : ℤ)
    (hroute : routes.find? (fun r => r.id == train.routeId) = some route)
    (htimes : ∀ e ∈ times, 0 < e.time)
    (hstations : ∀ sid ∈ route.stations,
      (stationsData.find? (fun s => s.id == sid)).isSome)
    (h12 : now1 < now2)
    (hwin1 : 0 ≤ jsFloorDiv (now1 - train.departureTime) 1000 ∧
      jsFloorDiv (now1 - train.departureTime) 1000 <
        (segmentTimes times (orderedStationsOf route train.direction)).sum)
    (hwin2 : 0 ≤ jsFloorDiv (now2 - train.departureTime) 1000 ∧
      jsFloorDiv (now2 - train.departureTime) 1000 <
        (segmentTimes times (orderedStationsOf route train.direction)).sum) :
    ∃ p1 p2,
      calculateSingleTrainPosition stationsData routes times train now1 = some p1 ∧
      calculateSingleTrainPosition stationsData routes times train now2 = some p2 ∧
      ((findSegment (jsFloorDiv (now1 - train.departureTime) 1000)
          (segmentTimes times (orderedStationsOf route train.direction))).1 <
        (findSegment (jsFloorDiv (now2 - train.departureTime) 1000)
          (segmentTimes times (orderedStationsOf route train.direction))).1 ∨
       ((findSegment (jsFloorDiv (now1 - train.departureTime) 1000)
          (segmentTimes times (orderedStationsOf route train.direction))).1 =
        (findSegment (jsFloorDiv (now2 - train.departureTime) 1000)
          (segmentTimes times (orderedStationsOf route train.direction))).1 ∧
        p1.progress ≤ p2.progress)) := by
  have hpos : ∀ t ∈ segmentTimes times (orderedStationsOf route train.direction), 0 < t :=
    segmentTimes_pos htimes _
  have he12 : jsFloorDiv (now1 - train.departureTime) 1000 ≤
      jsFloorDiv (now2 - train.departureTime) 1000 :=
    jsFloorDiv_mono (by norm_num) (by omega)
  have hlt1 := findSegment_lt_length_of _ _ hpos hwin1.1 hwin1.2
  have hlt2 := findSegment_lt_length_of _ _ hpos hwin2.1 hwin2.2
  obtain ⟨fs1, ts1, hfs1, hts1, hsome1⟩ := calcSingle_some_shape stationsData routes times
    train now1 route _ _ hroute rfl rfl hstations hwin1.1 hlt1
  obtain ⟨fs2, ts2, hfs2, hts2, hsome2⟩ := calcSingle_some_shape stationsData routes times
    train now2 route _ _ hroute rfl rfl hstations hwin2.1 hlt2
  refine ⟨_, _, hsome1, hsome2, ?_⟩
  have hmono := findSegmentAux_fst_mono he12
    (segmentTimes times (orderedStationsOf route train.direction)) 0 0
  rcases eq_or_lt_of_le hmono with heq | hlt
  swap
  · exact Or.inl hlt
  · refine Or.inr ⟨heq, ?_⟩
    have hsnd := findSegmentAux_snd_eq_of_fst_eq he12
      (segmentTimes times (orderedStationsOf route train.direction)) 0 0 heq
    dsimp only
    rw [show findSegment (jsFloorDiv (now1 - train.departureTime) 1000)
        (segmentTimes times (orderedStationsOf route train.direction)) =
        findSegmentAux (jsFloorDiv (now1 - train.departureTime) 1000) 0 0
          (segmentTimes times (orderedStationsOf route train.direction)) from rfl,
      show findSegment (jsFloorDiv (now2 - train.departureTime) 1000)
        (segmentTimes times (orderedStationsOf route train.direction)) =
        findSegmentAux (jsFloorDiv (now2 - train.departureTime) 1000) 0 0
          (segmentTimes times (orderedStationsOf route train.direction)) from rfl,
      heq, hsnd]
    have hT : (0 : ℚ) < ((getInterStationTime times
        ((orderedStationsOf route train.direction).getD
          (findSegmentAux (jsFloorDiv (now2 - train.departureTime) 1000) 0 0
            (segmentTimes times (orderedStationsOf route train.direction))).1 "")
        ((orderedStationsOf route train.direction).getD
          ((findSegmentAux (jsFloorDiv (now2 - train.departureTime) 1000) 0 0
            (segmentTimes times (orderedStationsOf route train.direction))).1 + 1) "") : ℤ) :
        ℚ) := by
      exact_mod_cast getInterStationTime_pos htimes _ _
    refine max_le_max (le_refl 0) (min_le_min ?_ (le_refl 1))
    refine (div_le_div_iff_of_pos_right hT).mpr ?_
    have : ((jsFloorDiv (now1 - train.departureTime) 1000 : ℤ) : ℚ) ≤
        ((jsFloorDiv (now2 - train.departureTime) 1000 : ℤ) : ℚ) := by exact_mod_cast he12
    push_cast
    push_cast at this
    linarith

/-- C3 counterexample: on the shipped data the originally claimed monotonicity
fails.  The `progress` reported by `calculateSingleTrainPosition` is the
intra-segment fraction: one second before the Halkalı → Mustafa Kemal segment
(180 s) ends, progress is 179/180, and one second later — still well inside the
journey window — the train enters the next segment and progress drops to 0. -/
theorem progress_not_monotone_counterexample :
    (179000 : ℤ) < 180000 ∧
    (0 ≤ jsFloorDiv ((179000 : ℤ) - sampleFullTrain.departureTime) 1000 ∧
      jsFloorDiv ((179000 : ℤ) - sampleFullTrain.departureTime) 1000 <
        (segmentTimes raydaInterStationTimes
          (orderedStationsOf marmarayFull sampleFullTrain.direction)).sum) ∧
    (0 ≤ jsFloorDiv ((180000 : ℤ) - sampleFullTrain.departureTime) 1000 ∧
      jsFloorDiv ((180000 : ℤ) - sampleFullTrain.departureTime) 1000 <
        (segmentTimes raydaInterStationTimes
          (orderedStationsOf marmarayFull sampleFullTrain.direction)).sum) ∧
    ∃ p1 p2,
      calculateSingleTrainPosition raydaStations raydaRoutes raydaInterStationTimes
        sampleFullTrain 179000 = some p1 ∧
      calculateSingleTrainPosition raydaStations raydaRoutes raydaInterStationTimes
        sampleFullTrain 180000 = some p2 ∧
      p2.progress < p1.progress := by
  obtain ⟨fs1, ts1, hfs1, hts1, hsome1⟩ := calcSingle_some_shape raydaStations raydaRoutes
    raydaInterStationTimes sampleFullTrain 179000 marmarayFull _ _ (by decide) rfl rfl
    (by decide) (by decide) (by decide)
  obtain ⟨fs2, ts2, hfs2, hts2, hsome2⟩ := calcSingle_some_shape raydaStations raydaRoutes
    raydaInterStationTimes sampleFullTrain 180000 marmarayFull _ _ (by decide) rfl rfl
    (by decide) (by decide) (by decide)
  refine ⟨by norm_num, by decide, by decide, _, _, hsome1, hsome2, ?_⟩
  dsimp only
  rw [show jsFloorDiv ((179000 : ℤ) - sampleFullTrain.departureTime) 1000 = 179 from by decide,
    show jsFloorDiv ((180000 : ℤ) - sampleFullTrain.departureTime) 1000 = 180 from by decide,
    show findSegment 179 (segmentTimes raydaInterStationTimes
      (orderedStationsOf marmarayFull sampleFullTrain.direction)) = (0, 0) from by decide,
    show findSegment 180 (segmentTimes raydaInterStationTimes
      (orderedStationsOf marmarayFull sampleFullTrain.direction)) = (1, 180) from by decide]
  dsimp only
  rw [show (orderedStationsOf marmarayFull sampleFullTrain.direction).getD 0 "" = "275"
      from by decide,
    show (orderedStationsOf marmarayFull sampleFullTrain.direction).getD 1 "" = "274"
      from by decide,
    show (orderedStationsOf marmarayFull sampleFullTrain.direction).getD 2 "" = "273"
      from by decide,
    show getInterStationTime raydaInterStationTimes "275" "274" = 180 from by decide,
    show getInterStationTime raydaInterStationTimes "274" "273" = 120 from by decide]
  norm_num [max_def, min_def]

/-- C3 witness: the amended theorem instantiated on the shipped data, for a
`marmaray-full` forward train queried 10 s and then 20 s after departure. -/
theorem progress_lexicographic_monotone_witness :
    ∃ p1 p2,
      calculateSingleTrainPosition raydaStations raydaRoutes raydaInterStationTimes
        sampleFullTrain 10000 = some p1 ∧
      calculateSingleTrainPosition raydaStations raydaRoutes raydaInterStationTimes
        sampleFullTrain 20000 = some p2 ∧
      ((findSegment (jsFloorDiv (10000 - sampleFullTrain.departureTime) 1000)
          (segmentTimes raydaInterStationTimes
            (orderedStationsOf marmarayFull sampleFullTrain.direction))).1 <
        (findSegment (jsFloorDiv (20000 - sampleFullTrain.departureTime) 1000)
          (segmentTimes raydaInterStationTimes
            (orderedStationsOf marmarayFull sampleFullTrain.direction))).1 ∨
       ((findSegment (jsFloorDiv (10000 - sampleFullTrain.departureTime) 1000)
          (segmentTimes raydaInterStationTimes
            (orderedStationsOf marmarayFull sampleFullTrain.direction))).1 =
        (findSegment (jsFloorDiv (20000 - sampleFullTrain.departureTime) 1000)
          (segmentTimes raydaInterStationTimes
            (orderedStationsOf marmarayFull sampleFullTrain.direction))).1 ∧
        p1.progress ≤ p2.progress)) :=
  progress_lexicographic_monotone raydaStations raydaRoutes raydaInterStationTimes
    sampleFullTrain marmarayFull 10000 20000 (by decide) (by decide) (by decide)
    (by norm_num) (by decide) (by decide)

/-! ## C2, C7 — fleet generation -/

lemma jsFloorDiv_def (a b : ℤ) : jsFloorDiv a b = a / b := rfl

/-- Fields of the train record built by `createTrain`. -/
lemma createTrain_fields {stationsData : List Station} {routes : List Route}
    {trainId routeId : String} {dir : Direction} {dep : ℤ} {tr : Train}
    (h : createTrain stationsData routes trainId routeId dir dep = some tr) :
    tr.id = trainId ∧ tr.direction = dir ∧ tr.departureTime = dep := by
  unfold createTrain at h
  split at h
  · cases h
  · simp only [Option.some_inj] at h
    subst h
    exact ⟨rfl, rfl, rfl⟩

/-- Ids of forward and backward instances never collide. -/
lemma mkTrainId_forward_ne_backward (rid : String) (i j : ℕ) :
    mkTrainId rid Direction.forward i ≠ mkTrainId rid Direction.backward j := by
  intro h
  unfold mkTrainId at h
  have hd := congrArg String.data h
  simp only [String.data_append, List.append_assoc] at hd
  have h2 := List.append_cancel_left hd
  simp at h2

lemma pairwise_option_toList {α : Type} (R : α → α → Prop) (o : Option α) :
    (o.toList).Pairwise R := by
  cases o <;> simp

/-- No generated train departs after `now`. -/
lemma createTrainsForRoute_departure_le (stationsData : List Station) (routes : List Route)
    (route : Route) (dayStart now : ℤ) :
    ∀ t ∈ createTrainsForRoute stationsData routes route dayStart now,
      t.departureTime ≤ now := by
  intro t ht
  simp only [createTrainsForRoute] at ht
  split at ht
  · cases ht
  · simp only [List.mem_flatMap] at ht
    obtain ⟨i, -, hmem⟩ := ht
    rw [List.mem_append] at hmem
    rcases hmem with h | h <;>
    · split at h
      · next hle =>
        rw [Option.mem_toList, Option.mem_def] at h
        have := (createTrain_fields h).2.2
        omega
      · cases h

/-- C2: for the full Marmaray route (frequency 15, service start 06:00), running
the fleet generator at 06:47 produces exactly the four forward instances with
departures 06:00, 06:15, 06:30 and 06:45 (indices 0–3); the 06:45 instance has
elapsed 120 seconds; and in general no generated instance departs after `now`. -/
theorem fleetGeneration_scenario_0647 :
    ((createTrainsForRoute raydaStations raydaRoutes marmarayFull 0 24420000).filter
        (fun t => decide (t.direction = Direction.forward))).map
        (fun t => (t.id, t.departureTime)) =
      [("marmaray-full-forward-0", 21600000), ("marmaray-full-forward-1", 22500000),
       ("marmaray-full-forward-2", 23400000), ("marmaray-full-forward-3", 24300000)] ∧
    jsFloorDiv (24420000 - 24300000) 1000 = 120 ∧
    ∀ (stationsData : List Station) (routes : List Route) (route : Route)
      (dayStart now : ℤ),
      ∀ t ∈ createTrainsForRoute stationsData routes route dayStart now,
        t.departureTime ≤ now := by
  exact ⟨by decide, by decide, createTrainsForRoute_departure_le⟩

/-- C2 witness: the generated 06:00 train is in the fleet and departs before 06:47. -/
theorem fleetGeneration_scenario_0647_witness :
    ∃ t ∈ createTrainsForRoute raydaStations raydaRoutes marmarayFull 0 24420000,
      t.departureTime ≤ 24420000 := by
  have h := fleetGeneration_scenario_0647
  obtain ⟨t, ht, -⟩ : ∃ t ∈ createTrainsForRoute raydaStations raydaRoutes marmarayFull 0
      24420000, t.direction = Direction.forward := by decide
  exact ⟨t, ht, h.2.2 raydaStations raydaRoutes marmarayFull 0 24420000 t ht⟩

/-- C7: re-running the fleet generator with the same `(route, now)` yields the
identical list of instances — in particular the same ids and departure times —
and within one run the `(id, departureTime)` pairs are pairwise distinct: no
duplication, no drift. -/
theorem fleetGeneration_idempotent_nodup (stationsData : List Station)
    (routes : List Route) (route : Route) (dayStart now : ℤ)
    (hfreq : 0 < route.frequency) :
    (createTrainsForRoute stationsData routes route dayStart now =
      createTrainsForRoute stationsData routes route dayStart now) ∧
    ((createTrainsForRoute stationsData routes route dayStart now).map
        (fun t => (t.id, t.departureTime))).Nodup := by
  refine ⟨rfl, ?_⟩
  have hf2 : 0 ≤ jsFloorDiv route.frequency 2 ∧ jsFloorDiv route.frequency 2 <
      route.frequency := by
    simp only [jsFloorDiv_def]
    omega
  simp only [createTrainsForRoute]
  split
  · simp
  · refine List.Pairwise.map (fun t : Train => (t.id, t.departureTime))
      (fun a b h => h) ?_
    rw [List.pairwise_flatMap]
    constructor
    · intro i hi
      rw [List.pairwise_append]
      refine ⟨?_, ?_, ?_⟩
      · split
        · exact pairwise_option_toList _ _
        · exact List.Pairwise.nil
      · split
        · exact pairwise_option_toList _ _
        · exact List.Pairwise.nil
      · intro a ha b hb
        split at ha
        · split at hb
          · rw [Option.mem_toList, Option.mem_def] at ha hb
            obtain ⟨haid, -, -⟩ := createTrain_fields ha
            obtain ⟨hbid, -, -⟩ := createTrain_fields hb
            intro hcon
            have hids : a.id = b.id := congrArg Prod.fst hcon
            rw [haid, hbid] at hids
            exact mkTrainId_forward_ne_backward _ _ _ hids
          · cases hb
        · cases ha
    · apply List.Pairwise.imp ?_ (List.pairwise_lt_range _)
      intro i j hij x hx y hy hcon
      have hdep : x.departureTime = y.departureTime := congrArg Prod.snd hcon
      have hij' : (i : ℤ) + 1 ≤ (j : ℤ) := by exact_mod_cast hij
      have key := mul_le_mul_of_nonneg_right hij' (le_of_lt hfreq)
      rw [add_mul, one_mul] at key
      rw [List.mem_append] at hx hy
      have hx' : x.departureTime = serviceStartOf route dayStart +
            (i : ℤ) * route.frequency * 60000 ∨
          x.departureTime = serviceStartOf route dayStart +
            ((i : ℤ) * route.frequency + jsFloorDiv route.frequency 2) * 60000 := by
        rcases hx with h | h
        · split at h
          · rw [Option.mem_toList, Option.mem_def] at h
            exact Or.inl (createTrain_fields h).2.2
          · cases h
        · split at h
          · rw [Option.mem_toList, Option.mem_def] at h
            exact Or.inr (createTrain_fields h).2.2
          · cases h
      have hy' : y.departureTime = serviceStartOf route dayStart +
            (j : ℤ) * route.frequency * 60000 ∨
          y.departureTime = serviceStartOf route dayStart +
            ((j : ℤ) * route.frequency + jsFloorDiv route.frequency 2) * 60000 := by
        rcases hy with h | h
        · split at h
          · rw [Option.mem_toList, Option.mem_def] at h
            exact Or.inl (createTrain_fields h).2.2
          · cases h
        · split at h
          · rw [Option.mem_toList, Option.mem_def] at h
            exact Or.inr (createTrain_fields h).2.2
          · cases h
      rcases hx' with hx' | hx' <;> rcases hy' with hy' | hy' <;>
        (rw [hx', hy'] at hdep; nlinarith [hf2.1, hf2.2, key, hdep])

/-- C7 witness: the theorem instantiated for the full Marmaray route at 06:47. -/
theorem fleetGeneration_idempotent_nodup_witness :
    (createTrainsForRoute raydaStations raydaRoutes marmarayFull 0 24420000 =
      createTrainsForRoute raydaStations raydaRoutes marmarayFull 0 24420000) ∧
    ((createTrainsForRoute raydaStations raydaRoutes marmarayFull 0 24420000).map
        (fun t => (t.id, t.departureTime))).Nodup :=
  fleetGeneration_idempotent_nodup raydaStations raydaRoutes marmarayFull 0 24420000
    (by decide)

/-! ## C10 — active-window schedule projection is strictly in the future -/

/-- `jsIndexOf` either misses (`-1`) or returns a valid index whose element is `s`. -/
lemma jsIndexOf_spec (l : List String) (s : String) :
    jsIndexOf l s = -1 ∨
    (0 ≤ jsIndexOf l s ∧ jsIndexOf l s < (l.length : ℤ) ∧
      l.getD (jsIndexOf l s).toNat "" = s) := by
  cases hfind : l.findIdx? (· == s) with
  | none => exact Or.inl (by simp [jsIndexOf, hfind])
  | some n =>
    obtain ⟨hlt, hidx⟩ := List.findIdx?_eq_some_iff_findIdx_eq.mp hfind
    refine Or.inr ?_
    simp only [jsIndexOf, hfind]
    refine ⟨Int.ofNat_nonneg n, by exact_mod_cast hlt, ?_⟩
    have hw : List.findIdx (fun x => x == s) l < l.length := by rw [hidx]; exact hlt
    have hp := @List.findIdx_getElem _ (fun x => x == s) l hw
    simp only [hidx] at hp
    have hl : l[n] = s := by simpa using hp
    simp only [Int.toNat_ofNat]
    rw [List.getD_eq_getElem l "" hlt]
    exact hl

/-- The 2-minutes-per-station offset is never negative. -/
lemma calculateStationOffset_nonneg (stationId : String) (route : Route)
    (dir : Direction) : 0 ≤ calculateStationOffset stationId route dir := by
  rcases jsIndexOf_spec route.stations stationId with h | ⟨h0, hlt, -⟩
  · simp [calculateStationOffset, h]
  · cases dir
    all_goals
      simp only [calculateStationOffset]
      split
      next => norm_num
      next =>
        split
        next => norm_num
        next => omega

/-- Ceiling division recovers at least the dividend when multiplied back. -/
lemma jsCeilDiv_mul_ge (m f : ℤ) (hf : 0 < f) : m ≤ jsCeilDiv m f * f := by
  unfold jsCeilDiv
  have h := Int.ediv_mul_le (-m) (ne_of_gt hf)
  linarith [neg_mul ((-m) / f) f]

/-- The next frequency-aligned departure is strictly after the query time once the
service window has started. -/
lemma calculateNextFrequencyDeparture_gt (fromStationId : String) (route : Route)
    (dir : Direction) (serviceStart frequency currentTime : ℤ)
    (hfreq : 0 < frequency) (hnow : serviceStart ≤ currentTime) :
    currentTime < calculateNextFrequencyDeparture fromStationId route dir serviceStart
      frequency currentTime := by
  have ho := calculateStationOffset_nonneg fromStationId route dir
  have hceil := jsCeilDiv_mul_ge (jsFloorDiv (currentTime - serviceStart) 60000) frequency
    hfreq
  have hmod := Int.emod_lt_of_pos (currentTime - serviceStart)
    (show (0 : ℤ) < 60000 by norm_num)
  have hmod0 := Int.emod_nonneg (currentTime - serviceStart)
    (show (60000 : ℤ) ≠ 0 by norm_num)
  have hdiv := Int.ediv_add_emod (currentTime - serviceStart) 60000
  simp only [calculateNextFrequencyDeparture, jsFloorDiv_def] at *
  split
  · next hle => nlinarith
  · next hgt => omega

lemma getRouteSchedule_serviceStart (route : Route) (dayStart currentTime : ℤ) :
    (getRouteSchedule route dayStart currentTime).serviceStart =
      serviceStartOf route dayStart := rfl

lemma getRouteSchedule_frequency (route : Route) (dayStart currentTime : ℤ) :
    (getRouteSchedule route dayStart currentTime).frequency = route.frequency := rfl

/-- The active flag of `getRouteSchedule` holds exactly inside the window. -/
lemma isActive_iff (route : Route) (dayStart currentTime : ℤ) :
    (getRouteSchedule route dayStart currentTime).isActive = true ↔
      serviceStartOf route dayStart ≤ currentTime ∧
        currentTime ≤ serviceEndOf route dayStart := by
  simp [getRouteSchedule]

/-- C10: whenever a route's service window is active at the query time, the
schedule-projected departure is strictly later than the query time (a slot at or
before `now` is pushed one frequency interval forward), and the reported
`waitingMinutes` is non-negative. -/
theorem active_window_departure_after_now (routes : List Route) (route : Route)
    (fromStationId toStationId routeId : String) (dir : Direction)
    (journeyTime dayStart currentTime : ℤ)
    (hroute : routes.find? (fun r => r.id == routeId) = some route)
    (hfreq : 0 < route.frequency)
    (hactive : (getRouteSchedule route dayStart currentTime).isActive = true) :
    ∃ d, calculateScheduledDeparture routes fromStationId toStationId routeId dir
        journeyTime dayStart currentTime = some d ∧
      currentTime < d.departureTime ∧ 0 ≤ d.waitingMinutes := by
  obtain ⟨h1, -⟩ := (isActive_iff route dayStart currentTime).mp hactive
  have hgt := calculateNextFrequencyDeparture_gt fromStationId route dir
    (serviceStartOf route dayStart) route.frequency currentTime hfreq h1
  simp only [calculateScheduledDeparture, hroute, hactive, if_true,
    getRouteSchedule_serviceStart, getRouteSchedule_frequency, Option.map_some]
  exact ⟨_, rfl, hgt, le_max_left _ _⟩

/-- C10 witness: the theorem instantiated on the shipped data at 06:47 for a
Yenikapı departure toward Gebze on the full line. -/
theorem active_window_departure_after_now_witness :
    ∃ d, calculateScheduledDeparture raydaRoutes "234" "302" "marmaray-full"
        Direction.forward 3180 0 24420000 = some d ∧
      (24420000 : ℤ) < d.departureTime ∧ 0 ≤ d.waitingMinutes :=
  active_window_departure_after_now raydaRoutes marmarayFull "234" "302" "marmaray-full"
    Direction.forward 3180 0 24420000 (by decide) (by decide) (by decide)

/-! ## C6 — journey planning during an inactive service window -/

/-- An inactive schedule always carries a next service start. -/
lemma nextServiceStart_isSome_of_inactive (route : Route) (dayStart currentTime : ℤ)
    (h : (getRouteSchedule route dayStart currentTime).isActive = false) :
    ∃ s, (getRouteSchedule route dayStart currentTime).nextServiceStart = some s := by
  simp only [getRouteSchedule] at h ⊢
  simp only [h, Bool.false_eq_true, if_false]
  split <;> exact ⟨_, rfl⟩

/-- C6: a journey planned between two stations of a common route while the route's
service window is inactive and no live train qualifies yields a `JourneyPlan`
whose next departure is marked scheduled (`isScheduled = true`) and departs at the
next service window's start plus the origin station's 2-minutes-per-station
offset in the travel direction. -/
theorem inactive_window_scheduled_departure (stationsData : List Station)
    (routes : List Route) (times : List InterStationTime)
    (fromStationId toStationId : String) (trainPositions : List TrainPosition)
    (dayStart departureTime maxWaitTime : ℤ) (fromStation toStation : Station)
    (route : Route) (dir : Direction) (fi ti : ℤ)
    (hfrom : stationsData.find? (fun s => s.id == fromStationId) = some fromStation)
    (hto : stationsData.find? (fun s => s.id == toStationId) = some toStation)
    (hne : (fromStation.id == toStation.id) = false)
    (hconn : findConnectingRoute routes fromStationId toStationId =
      some (route, dir, fi, ti))
    (hroute2 : routes.find? (fun r => r.id == route.id) = some route)
    (hinactive : (getRouteSchedule route dayStart departureTime).isActive = false)
    (hnolive : (calculateStationArrivals stationsData routes times fromStationId
        trainPositions 10 departureTime).filter (fun a =>
          a.routeId == route.id && decide (a.direction = dir) &&
            decide (a.minutesAway ≤ maxWaitTime)) = []) :
    ∃ plan nd,
      calculateJourney stationsData routes times fromStationId toStationId
        trainPositions dayStart departureTime maxWaitTime = some plan ∧
      plan.nextDeparture = some nd ∧ nd.isScheduled = true ∧
      ∃ s, (getRouteSchedule route dayStart departureTime).nextServiceStart = some s ∧
        nd.departureTime = s + calculateStationOffset fromStationId route dir * 60000 := by
  obtain ⟨s, hs⟩ := nextServiceStart_isSome_of_inactive route dayStart departureTime
    hinactive
  have hnd : ∃ nd, findNextDeparture stationsData routes times fromStationId toStationId
      route.id dir trainPositions dayStart departureTime maxWaitTime
      (calculateJourneyTime times (getJourneyStations stationsData route dir fi ti)) =
        some nd ∧ nd.isScheduled = true ∧
      nd.departureTime = s + calculateStationOffset fromStationId route dir * 60000 := by
    simp only [findNextDeparture, hnolive, calculateScheduledDeparture, hroute2,
      hinactive, Bool.false_eq_true, if_false, hs, calculateServiceStartDeparture,
      Option.map_some]
    exact ⟨_, rfl, rfl, rfl⟩
  obtain ⟨nd, hndeq, hsch, hdep⟩ := hnd
  have hplan : calculateJourney stationsData routes times fromStationId toStationId
      trainPositions dayStart departureTime maxWaitTime = some
      { fromStation := fromStation, toStation := toStation, route := route,
        direction := dir,
        totalTime := calculateJourneyTime times
          (getJourneyStations stationsData route dir fi ti),
        totalDistance := calculateJourneyDistance
          (getJourneyStations stationsData route dir fi ti),
        stationCount := ((getJourneyStations stationsData route dir fi ti).length : ℤ) - 1,
        stations := getJourneyStations stationsData route dir fi ti,
        nextDeparture := findNextDeparture stationsData routes times fromStationId
          toStationId route.id dir trainPositions dayStart departureTime maxWaitTime
          (calculateJourneyTime times (getJourneyStations stationsData route dir fi ti)) } :=
    by simp only [calculateJourney, hfrom, hto, hne, Bool.false_eq_true, if_false, hconn]
  exact ⟨_, nd, hplan, hndeq, hsch, s, hs, hdep⟩

/-- Minimal two-station data set used to instantiate theorems whose statements do
not depend on the shipped tables. -/
def toyStationA : Station := ⟨"a", "A", (0, 0), 0⟩

def toyStationB : Station := ⟨"b", "B", (1, 1), 5⟩

def toyStations : List Station := [toyStationA, toyStationB]

def toyRoute : Route := ⟨"r1", "Toy Line", ("a", "b"), 15, ["a", "b"], "#ffffff"⟩

def toyRoutes : List Route := [toyRoute]

def toyTimes : List InterStationTime := [⟨"a", "b", 100⟩, ⟨"b", "a", 100⟩]

/-- C6 witness: the theorem instantiated for a midnight query (inactive window)
on the toy route with no live trains. -/
theorem inactive_window_scheduled_departure_witness :
    ∃ plan nd,
      calculateJourney toyStations toyRoutes toyTimes "a" "b" [] 0 0 30 = some plan ∧
      plan.nextDeparture = some nd ∧ nd.isScheduled = true ∧
      ∃ s, (getRouteSchedule toyRoute 0 0).nextServiceStart = some s ∧
        nd.departureTime = s +
          calculateStationOffset "a" toyRoute Direction.forward * 60000 :=
  inactive_window_scheduled_departure toyStations toyRoutes toyTimes "a" "b" [] 0 0 30
    toyStationA toyStationB toyRoute Direction.forward 0 1 (by decide) (by decide)
    (by decide) (by decide) (by decide) (by decide) (by decide)

/-! ## C4 — trains moving away never appear in a station's arrival list -/

lemma mem_insertByArrival (a : ArrivalPrediction) (l : List ArrivalPrediction)
    (b : ArrivalPrediction) : b ∈ insertByArrival a l → b = a ∨ b ∈ l := by
  induction l with
  | nil => intro h; simpa [insertByArrival] using h
  | cons c rest ih =>
    intro h
    simp only [insertByArrival] at h
    split at h
    · rcases List.mem_cons.mp h with h | h
      · exact Or.inr (by simp [h])
      · rcases ih h with h | h
        · exact Or.inl h
        · exact Or.inr (List.mem_cons_of_mem _ h)
    · rcases List.mem_cons.mp h with h | h
      · exact Or.inl h
      · exact Or.inr h

lemma mem_sortByArrival (l : List ArrivalPrediction) (b : ArrivalPrediction) :
    b ∈ sortByArrival l → b ∈ l := by
  induction l with
  | nil => intro h; simpa [sortByArrival] using h
  | cons a rest ih =>
    intro h
    simp only [sortByArrival] at h
    rcases mem_insertByArrival _ _ _ h with h | h
    · simp [h]
    · exact List.mem_cons_of_mem _ (ih h)

/-- Every produced arrival prediction carries the train's id. -/
lemma calculateTrainArrival_trainId {stationsData : List Station}
    {times : List InterStationTime} {stationId : String} {tp : TrainPosition}
    {route : Route} {currentTime : ℤ} {p : ArrivalPrediction}
    (h : calculateTrainArrival stationsData times stationId tp route currentTime =
      some p) : p.trainId = tp.trainId := by
  simp only [calculateTrainArrival] at h
  split at h
  · cases h
  · split at h
    · cases h
    · split at h
      · cases h
      · split at h
        · cases h
        · rw [Option.some_inj] at h
          subst h
          rfl

/-- C4: for every station, snapshot and train in it, if the train's current
segment index is at or past the station's index in its direction of travel, the
train contributes no entry to the station's arrival-prediction list. -/
theorem movingAway_train_absent_from_arrivals (stationsData : List Station)
    (routes : List Route) (times : List InterStationTime) (stationId : String)
    (trainPositions : List TrainPosition) (maxArrivals : ℕ) (currentTime : ℤ)
    (tp : TrainPosition) (route : Route)
    (htp : tp ∈ trainPositions)
    (hroute : routes.find? (fun r => r.id == tp.routeId) = some route)
    (huniq : ∀ tp2 ∈ trainPositions, tp2.trainId = tp.trainId → tp2 = tp)
    (haway : (tp.direction = Direction.forward ∧
        jsIndexOf route.stations stationId ≤ jsIndexOf route.stations tp.fromStationId) ∨
      (tp.direction = Direction.backward ∧
        jsIndexOf route.stations tp.fromStationId ≤ jsIndexOf route.stations stationId)) :
    ∀ p ∈ calculateStationArrivals stationsData routes times stationId trainPositions
        maxArrivals currentTime, p.trainId ≠ tp.trainId := by
  have hnone : calculateTrainArrival stationsData times stationId tp route currentTime =
      none := by
    have hcalc : calculateTravelTime times route tp
        (jsIndexOf route.stations tp.fromStationId)
        (jsIndexOf route.stations tp.toStationId)
        (jsIndexOf route.stations stationId) = none := by
      unfold calculateTravelTime
      rcases haway with ⟨hdir, hle⟩ | ⟨hdir, hle⟩ <;> rw [hdir]
      · simp only [if_pos hle]
      · simp only [if_pos hle]
    simp only [calculateTrainArrival, hcalc]
    split
    · rfl
    · split
      · rfl
      · rfl
  intro p hp
  simp only [calculateStationArrivals] at hp
  split at hp
  · cases hp
  · have hp2 := List.mem_of_mem_take hp
    have hp3 := mem_sortByArrival _ _ hp2
    simp only [List.mem_filterMap] at hp3
    obtain ⟨tp2, htp2, hbind⟩ := hp3
    rw [Option.bind_eq_some] at hbind
    obtain ⟨route2, hr2, harr⟩ := hbind
    intro heqid
    have hid2 : tp2.trainId = tp.trainId := by
      rw [← calculateTrainArrival_trainId harr]
      exact heqid
    have h4 := huniq tp2 htp2 hid2
    subst h4
    rw [hroute, Option.some_inj] at hr2
    subst hr2
    rw [hnone] at harr
    cases harr

/-- A forward train already past station `a` on the toy route (its current
segment starts at `b`). -/
def toyAwayPosition : TrainPosition :=
  ⟨"t1", "r1", (0, 0), 0, "b", "a", Direction.forward, 0⟩

/-- C4 witness: the theorem instantiated on the toy data for a forward train
whose current segment index is at the target station's index. -/
theorem movingAway_train_absent_from_arrivals_witness :
    ¬ ∃ p, p ∈ calculateStationArrivals toyStations toyRoutes toyTimes "a"
        [toyAwayPosition] 4 0 ∧ p.trainId = toyAwayPosition.trainId := by
  rintro ⟨p, hp, hid⟩
  exact movingAway_train_absent_from_arrivals toyStations toyRoutes toyTimes "a"
    [toyAwayPosition] 4 0 toyAwayPosition toyRoute (by decide) (by decide)
    (by decide) (by decide) p hp hid

/-! ## C8 — direction symmetry of journeys -/

/-- What `findConnectingRoute` reports about the tuple it returns. -/
lemma findConnectingRoute_spec (routes : List Route) (A B : String) (route : Route)
    (dir : Direction) (fi ti : ℤ)
    (h : findConnectingRoute routes A B = some (route, dir, fi, ti)) :
    dir = (if fi < ti then Direction.forward else Direction.backward) ∧
      fi = jsIndexOf route.stations A ∧ ti = jsIndexOf route.stations B := by
  induction routes with
  | nil => cases h
  | cons r rs ih =>
    simp only [findConnectingRoute, List.findSome?_cons] at h
    by_cases hc : jsIndexOf r.stations A ≠ -1 ∧ jsIndexOf r.stations B ≠ -1
    · rw [if_pos hc] at h
      rw [Option.some_inj] at h
      obtain ⟨h1, h2, h3, h4⟩ : r = route ∧
          (if jsIndexOf r.stations A < jsIndexOf r.stations B then Direction.forward
            else Direction.backward) = dir ∧
          jsIndexOf r.stations A = fi ∧ jsIndexOf r.stations B = ti := by
        simpa [Prod.ext_iff] using h
      subst h1
      exact ⟨by rw [← h2, h3, h4], h3.symm, h4.symm⟩
    · rw [if_neg hc] at h
      exact ih h

/-- Swapping the endpoints finds the same route with the direction flipped and
the indices exchanged. -/
lemma findConnectingRoute_symm (routes : List Route) (A B : String) (route : Route)
    (dir : Direction) (fi ti : ℤ)
    (h : findConnectingRoute routes A B = some (route, dir, fi, ti)) :
    findConnectingRoute routes B A =
      some (route, (if ti < fi then Direction.forward else Direction.backward), ti, fi) := by
  induction routes with
  | nil => cases h
  | cons r rs ih =>
    simp only [findConnectingRoute, List.findSome?_cons] at h ⊢
    by_cases hc : jsIndexOf r.stations A ≠ -1 ∧ jsIndexOf r.stations B ≠ -1
    · rw [if_pos hc] at h
      rw [Option.some_inj] at h
      obtain ⟨h1, h2, h3, h4⟩ : r = route ∧
          (if jsIndexOf r.stations A < jsIndexOf r.stations B then Direction.forward
            else Direction.backward) = dir ∧
          jsIndexOf r.stations A = fi ∧ jsIndexOf r.stations B = ti := by
        simpa [Prod.ext_iff] using h
      have hc' : jsIndexOf r.stations B ≠ -1 ∧ jsIndexOf r.stations A ≠ -1 :=
        ⟨hc.2, hc.1⟩
      rw [if_pos hc']
      subst h1
      rw [h3, h4]
    · rw [if_neg hc] at h
      have hc' : ¬ (jsIndexOf r.stations B ≠ -1 ∧ jsIndexOf r.stations A ≠ -1) :=
        fun hx => hc ⟨hx.2, hx.1⟩
      rw [if_neg hc']
      exact ih h

/-- Walking a route backward visits the reverse of the forward station slice. -/
lemma getJourneyStations_backward_eq_reverse (stationsData : List Station)
    (route : Route) (fi ti : ℤ) :
    getJourneyStations stationsData route Direction.backward ti fi =
      (getJourneyStations stationsData route Direction.forward fi ti).reverse := by
  simp only [getJourneyStations]
  exact List.filterMap_reverse _ _

lemma adjPairs_cons_cons {α : Type} (a b : α) (l : List α) :
    adjPairs (a :: b :: l) = (a, b) :: adjPairs (b :: l) := rfl

lemma calculateJourneyTime_append_singleton (times : List InterStationTime) :
    ∀ (l : List Station) (a : Station),
      calculateJourneyTime times (l ++ [a]) = calculateJourneyTime times l +
        (match l.getLast? with
          | some y => getInterStationTime times y.id a.id
          | none => 0) := by
  intro l
  induction l with
  | nil => intro a; simp [calculateJourneyTime]
  | cons x rest ih =>
    intro a
    cases rest with
    | nil => simp [calculateJourneyTime]
    | cons y rest2 =>
      have hstep : calculateJourneyTime times ((x :: y :: rest2) ++ [a]) =
          getInterStationTime times x.id y.id +
            calculateJourneyTime times ((y :: rest2) ++ [a]) := rfl
      have hstep2 : calculateJourneyTime times (x :: y :: rest2) =
          getInterStationTime times x.id y.id +
            calculateJourneyTime times (y :: rest2) := rfl
      rw [hstep, ih a, hstep2, List.getLast?_cons_cons]
      omega

/-- Summing the reversed slice gives the forward sum whenever the travel-time
table is symmetric on the stations of the slice. -/
lemma calculateJourneyTime_reverse (times : List InterStationTime) :
    ∀ (l : List Station),
      (∀ s1 ∈ l, ∀ s2 ∈ l, getInterStationTime times s1.id s2.id =
        getInterStationTime times s2.id s1.id) →
      calculateJourneyTime times l.reverse = calculateJourneyTime times l := by
  intro l
  induction l with
  | nil => intro _; rfl
  | cons a rest ih =>
    intro hsym
    cases rest with
    | nil => rfl
    | cons b rest2 =>
      have hrest : ∀ s1 ∈ b :: rest2, ∀ s2 ∈ b :: rest2,
          getInterStationTime times s1.id s2.id =
            getInterStationTime times s2.id s1.id := by
        intro s1 h1 s2 h2
        exact hsym s1 (List.mem_cons_of_mem _ h1) s2 (List.mem_cons_of_mem _ h2)
      have hrev : (a :: b :: rest2).reverse = (b :: rest2).reverse ++ [a] := by
        simp
      rw [hrev, calculateJourneyTime_append_singleton times _ a]
      rw [List.getLast?_reverse]
      simp only [List.head?_cons]
      rw [ih hrest]
      have hab := hsym a (List.mem_cons_self _ _) b
        (List.mem_cons_of_mem _ (List.mem_cons_self _ _))
      simp only [calculateJourneyTime]
      omega

/-- The distance only depends on the endpoints, so reversal preserves it. -/
lemma calculateJourneyDistance_reverse (l : List Station) :
    calculateJourneyDistance l.reverse = calculateJourneyDistance l := by
  simp only [calculateJourneyDistance, List.length_reverse]
  split
  · rfl
  · rw [List.getLastD_eq_getLast?, List.getLastD_eq_getLast?, List.headD_eq_head?,
      List.headD_eq_head?, List.getLast?_reverse, List.head?_reverse]
    exact abs_sub_comm _ _

/-- The `JourneyPlan` produced by `calculateJourney` once both stations resolve
and a connecting route is found. -/
lemma calculateJourney_eq (stationsData : List Station) (routes : List Route)
    (times : List InterStationTime) (A B : String)
    (trainPositions : List TrainPosition) (dayStart departureTime maxWaitTime : ℤ)
    (fromStation toStation : Station) (route : Route) (dir : Direction) (fi ti : ℤ)
    (hfrom : stationsData.find? (fun s => s.id == A) = some fromStation)
    (hto : stationsData.find? (fun s => s.id == B) = some toStation)
    (hne : (fromStation.id == toStation.id) = false)
    (hconn : findConnectingRoute routes A B = some (route, dir, fi, ti)) :
    calculateJourney stationsData routes times A B trainPositions dayStart
        departureTime maxWaitTime = some
      { fromStation := fromStation, toStation := toStation, route := route,
        direction := dir,
        totalTime := calculateJourneyTime times
          (getJourneyStations stationsData route dir fi ti),
        totalDistance := calculateJourneyDistance
          (getJourneyStations stationsData route dir fi ti),
        stationCount := ((getJourneyStations stationsData route dir fi ti).length : ℤ) - 1,
        stations := getJourneyStations stationsData route dir fi ti,
        nextDeparture := findNextDeparture stationsData routes times A B route.id dir
          trainPositions dayStart departureTime maxWaitTime
          (calculateJourneyTime times (getJourneyStations stationsData route dir fi ti)) } :=
  by simp only [calculateJourney, hfrom, hto, hne, Bool.false_eq_true, if_false, hconn]

/-- C8: the journeys A → B and B → A on the same route report the same
`totalTime` and the same `totalDistance` — exactly (the times are integers and
the distance is a difference of the same two km marks), provided the
inter-station table is symmetric on the stations of the slice, which holds of
the shipped table. -/
theorem journey_direction_symmetry (stationsData : List Station)
    (routes : List Route) (times : List InterStationTime) (A B : String)
    (trainPositions : List TrainPosition) (dayStart departureTime maxWaitTime : ℤ)
    (fromStation toStation : Station) (route : Route) (dir : Direction) (fi ti : ℤ)
    (hfrom : stationsData.find? (fun s => s.id == A) = some fromStation)
    (hto : stationsData.find? (fun s => s.id == B) = some toStation)
    (hne : (fromStation.id == toStation.id) = false)
    (hconn : findConnectingRoute routes A B = some (route, dir, fi, ti))
    (hsym : ∀ s1 ∈ getJourneyStations stationsData route dir fi ti,
      ∀ s2 ∈ getJourneyStations stationsData route dir fi ti,
        getInterStationTime times s1.id s2.id = getInterStationTime times s2.id s1.id) :
    ∃ pAB pBA,
      calculateJourney stationsData routes times A B trainPositions dayStart
        departureTime maxWaitTime = some pAB ∧
      calculateJourney stationsData routes times B A trainPositions dayStart
        departureTime maxWaitTime = some pBA ∧
      pBA.totalTime = pAB.totalTime ∧ pBA.totalDistance = pAB.totalDistance := by
  obtain ⟨hdir, -, -⟩ := findConnectingRoute_spec routes A B route dir fi ti hconn
  have hconnBA := findConnectingRoute_symm routes A B route dir fi ti hconn
  have hne' : (toStation.id == fromStation.id) = false := by
    rw [beq_eq_false_iff_ne] at hne ⊢
    exact hne.symm
  subst hdir
  have hmain :
      calculateJourneyTime times (getJourneyStations stationsData route
        (if ti < fi then Direction.forward else Direction.backward) ti fi) =
      calculateJourneyTime times (getJourneyStations stationsData route
        (if fi < ti then Direction.forward else Direction.backward) fi ti) ∧
      calculateJourneyDistance (getJourneyStations stationsData route
        (if ti < fi then Direction.forward else Direction.backward) ti fi) =
      calculateJourneyDistance (getJourneyStations stationsData route
        (if fi < ti then Direction.forward else Direction.backward) fi ti) := by
    rcases lt_trichotomy fi ti with hlt | heq | hgt
    · rw [if_pos hlt] at hsym ⊢
      rw [if_neg (show ¬ ti < fi by omega)]
      rw [getJourneyStations_backward_eq_reverse]
      exact ⟨calculateJourneyTime_reverse times _ hsym,
        calculateJourneyDistance_reverse _⟩
    · subst heq
      rw [if_neg (lt_irrefl fi)]
      exact ⟨rfl, rfl⟩
    · rw [if_neg (show ¬ fi < ti by omega)] at hsym ⊢
      rw [if_pos hgt]
      rw [getJourneyStations_backward_eq_reverse] at hsym ⊢
      have hsym' : ∀ s1 ∈ getJourneyStations stationsData route Direction.forward ti fi,
          ∀ s2 ∈ getJourneyStations stationsData route Direction.forward ti fi,
            getInterStationTime times s1.id s2.id =
              getInterStationTime times s2.id s1.id := by
        intro s1 h1 s2 h2
        exact hsym s1 (List.mem_reverse.mpr h1) s2 (List.mem_reverse.mpr h2)
      exact ⟨(calculateJourneyTime_reverse times _ hsym').symm,
        (calculateJourneyDistance_reverse _).symm⟩
  exact ⟨_, _,
    calculateJourney_eq stationsData routes times A B trainPositions dayStart
      departureTime maxWaitTime fromStation toStation route _ fi ti hfrom hto hne hconn,
    calculateJourney_eq stationsData routes times B A trainPositions dayStart
      departureTime maxWaitTime toStation fromStation route _ ti fi hto hfrom hne'
      hconnBA,
    hmain.1, hmain.2⟩

/-- C8 witness: the theorem instantiated on the shipped data for the adjacent
stations Halkalı (275) and Mustafa Kemal (274) of the full line. -/
theorem journey_direction_symmetry_witness :
    ∃ pAB pBA,
      calculateJourney raydaStations raydaRoutes raydaInterStationTimes "275" "274"
        [] 0 24420000 30 = some pAB ∧
      calculateJourney raydaStations raydaRoutes raydaInterStationTimes "274" "275"
        [] 0 24420000 30 = some pBA ∧
      pBA.totalTime = pAB.totalTime ∧ pBA.totalDistance = pAB.totalDistance :=
  journey_direction_symmetry raydaStations raydaRoutes raydaInterStationTimes "275"
    "274" [] 0 24420000 30 ⟨"275", "Halkalı", (28.7664382511562, 41.0178427940864),
      0.00⟩ ⟨"274", "Mustafa Kemal", (28.7739502215087, 41.0062789769983), 1.19⟩
    marmarayFull Direction.forward 0 1 (by rfl) (by rfl) (by decide) (by decide)
    (by decide)

/-! ## C5, C9 — geometry mapping -/

/-- One search step keeps the running best score below any bound that also
bounds both of the candidate's orientation scores. -/
lemma trackScoreStep_lt (dist : Coordinate → Coordinate → ℚ)
    (fromCoord toCoord : Coordinate) (best : ℚ × List Coordinate) (seg : TrackSegment)
    (eps : ℚ) (hbest : best.1 < eps)
    (h1 : 1 / (dist fromCoord (seg.coordinates.headD ⟨0, 0⟩) +
      dist toCoord (seg.coordinates.getLastD ⟨0, 0⟩) + 1) < eps)
    (h2 : 1 / (dist fromCoord (seg.coordinates.getLastD ⟨0, 0⟩) +
      dist toCoord (seg.coordinates.headD ⟨0, 0⟩) + 1) < eps) :
    (trackScoreStep dist fromCoord toCoord best seg).1 < eps := by
  simp only [trackScoreStep]
  split <;> (try split) <;> first
    | exact h1
    | exact h2
    | exact hbest

/-- The best score over all polylines stays below any bound that bounds every
candidate score. -/
lemma trackScore_fold_lt (dist : Coordinate → Coordinate → ℚ)
    (fromCoord toCoord : Coordinate) (eps : ℚ) :
    ∀ (segs : List TrackSegment) (init : ℚ × List Coordinate), init.1 < eps →
      (∀ seg ∈ segs,
        1 / (dist fromCoord (seg.coordinates.headD ⟨0, 0⟩) +
          dist toCoord (seg.coordinates.getLastD ⟨0, 0⟩) + 1) < eps ∧
        1 / (dist fromCoord (seg.coordinates.getLastD ⟨0, 0⟩) +
          dist toCoord (seg.coordinates.headD ⟨0, 0⟩) + 1) < eps) →
      (segs.foldl (trackScoreStep dist fromCoord toCoord) init).1 < eps := by
  intro segs
  induction segs with
  | nil => intro init hinit _; exact hinit
  | cons s rest ih =>
    intro init hinit hlow
    rw [List.foldl_cons]
    refine ih _ ?_ (fun seg hseg => hlow seg (List.mem_cons_of_mem _ hseg))
    have hs := hlow s (List.mem_cons_self _ _)
    exact trackScoreStep_lt dist fromCoord toCoord init s eps hinit hs.1 hs.2

/-- C5: when no retained polyline scores at or above the `0.00001` confidence
threshold for a consecutive station pair (in either orientation), `findTrackPath`
returns the straight two-point line between the stations, and
`calculateRoutePattern` still returns the route, carrying that straight segment. -/
theorem findTrackPath_straight_line_fallback (dist : Coordinate → Coordinate → ℚ)
    (trackSegments : List TrackSegment) (stationsData : List Station)
    (times : List InterStationTime) (route : Route) (fromStation toStation : Station)
    (hlow : ∀ seg ∈ trackSegments,
      1 / (dist (stationCoordinate fromStation) (seg.coordinates.headD ⟨0, 0⟩) +
        dist (stationCoordinate toStation) (seg.coordinates.getLastD ⟨0, 0⟩) + 1) <
          1 / 100000 ∧
      1 / (dist (stationCoordinate fromStation) (seg.coordinates.getLastD ⟨0, 0⟩) +
        dist (stationCoordinate toStation) (seg.coordinates.headD ⟨0, 0⟩) + 1) <
          1 / 100000)
    (hmem : (fromStation.id, toStation.id) ∈ adjPairs route.stations)
    (hfrom : stationsData.find? (fun s => s.id == fromStation.id) = some fromStation)
    (hto : stationsData.find? (fun s => s.id == toStation.id) = some toStation) :
    findTrackPath dist trackSegments fromStation toStation =
      [stationCoordinate fromStation, stationCoordinate toStation] ∧
    ∃ seg ∈ (calculateRoutePattern dist trackSegments stationsData times route).segments,
      seg.fromStationId = fromStation.id ∧ seg.toStationId = toStation.id ∧
      seg.trackPath = [stationCoordinate fromStation, stationCoordinate toStation] := by
  have hfall : findTrackPath dist trackSegments fromStation toStation =
      [stationCoordinate fromStation, stationCoordinate toStation] := by
    have hlt := trackScore_fold_lt dist (stationCoordinate fromStation)
      (stationCoordinate toStation) (1 / 100000) trackSegments (-1, []) (by norm_num)
      hlow
    simp only [findTrackPath]
    rw [if_pos (Or.inr hlt)]
  refine ⟨hfall, ?_⟩
  refine ⟨{ fromStationId := fromStation.id, toStationId := toStation.id,
            trackPath := findTrackPath dist trackSegments fromStation toStation,
            distance := calculatePathLength dist
              (findTrackPath dist trackSegments fromStation toStation),
            travelTime := getInterStationTime times fromStation.id toStation.id },
    List.mem_filterMap.mpr ⟨(fromStation.id, toStation.id), hmem, ?_⟩, rfl, rfl, hfall⟩
  simp only [hfrom, hto]

lemma filterMap_length_of_all_isSome {α β : Type} (f : α → Option β) (l : List α)
    (h : ∀ a ∈ l, (f a).isSome) : (l.filterMap f).length = l.length := by
  induction l with
  | nil => rfl
  | cons a rest ih =>
    rw [List.filterMap_cons]
    obtain ⟨b, hb⟩ := Option.isSome_iff_exists.mp (h a (List.mem_cons_self _ _))
    rw [hb]
    simp only [List.length_cons, ih (fun x hx => h x (List.mem_cons_of_mem _ hx))]

lemma adjPairs_mem_left {α : Type} {p : α × α} {l : List α} (h : p ∈ adjPairs l) :
    p.1 ∈ l ∧ p.2 ∈ l := by
  obtain ⟨p1, p2⟩ := p
  have := List.of_mem_zip h
  exact ⟨this.1, List.mem_of_mem_tail this.2⟩

/-- C9: the built route geometry has exactly `len(stations) - 1` segments (for
complete station data), each segment's `distance` field is the arc length of its
chosen path, and the accumulated `totalDistance` is the sum of those arc lengths. -/
theorem routeGeometry_segment_count_and_distances (dist : Coordinate → Coordinate → ℚ)
    (trackSegments : List TrackSegment) (stationsData : List Station)
    (times : List InterStationTime) (route : Route)
    (hfound : ∀ sid ∈ route.stations,
      (stationsData.find? (fun s => s.id == sid)).isSome) :
    ((calculateRoutePattern dist trackSegments stationsData times route).segments).length =
      route.stations.length - 1 ∧
    (∀ seg ∈ (calculateRoutePattern dist trackSegments stationsData times route).segments,
      seg.distance = calculatePathLength dist seg.trackPath) ∧
    (calculateRoutePattern dist trackSegments stationsData times route).totalDistance =
      (((calculateRoutePattern dist trackSegments stationsData times route).segments).map
        (fun seg => calculatePathLength dist seg.trackPath)).sum := by
  have hdist : ∀ seg ∈ (calculateRoutePattern dist trackSegments stationsData times
      route).segments, seg.distance = calculatePathLength dist seg.trackPath := by
    intro seg hseg
    simp only [calculateRoutePattern, List.mem_filterMap] at hseg
    obtain ⟨p, -, hp⟩ := hseg
    split at hp
    · rw [Option.some_inj] at hp
      subst hp
      rfl
    · cases hp
  refine ⟨?_, hdist, ?_⟩
  · have : (calculateRoutePattern dist trackSegments stationsData times route).segments =
        (adjPairs route.stations).filterMap _ := rfl
    rw [this, filterMap_length_of_all_isSome _ _ ?_, adjPairs_length]
    intro p hp
    obtain ⟨h1, h2⟩ := adjPairs_mem_left hp
    obtain ⟨fs, hfs⟩ := Option.isSome_iff_exists.mp (hfound _ h1)
    obtain ⟨ts, hts⟩ := Option.isSome_iff_exists.mp (hfound _ h2)
    simp only [hfs, hts, Option.isSome_some]
  · have : (calculateRoutePattern dist trackSegments stationsData times
        route).totalDistance =
        (((calculateRoutePattern dist trackSegments stationsData times route).segments).map
          (fun seg => seg.distance)).sum := rfl
    rw [this]
    congr 1
    exact List.map_congr_left hdist

/-- C5 witness: with no retained polylines at all, the toy station pair falls
back to the straight line and the toy route is still produced around it. -/
theorem findTrackPath_straight_line_fallback_witness :
    findTrackPath (fun _ _ => 200000) [] toyStationA toyStationB =
      [stationCoordinate toyStationA, stationCoordinate toyStationB] ∧
    ∃ seg ∈ (calculateRoutePattern (fun _ _ => 200000) [] toyStations toyTimes
        toyRoute).segments,
      seg.fromStationId = toyStationA.id ∧ seg.toStationId = toyStationB.id ∧
      seg.trackPath = [stationCoordinate toyStationA, stationCoordinate toyStationB] :=
  findTrackPath_straight_line_fallback (fun _ _ => 200000) [] toyStations toyTimes
    toyRoute toyStationA toyStationB (by simp) (by decide) (by rfl) (by rfl)

/-- C9 witness: the theorem instantiated on the toy route with no polylines. -/
theorem routeGeometry_segment_count_and_distances_witness :
    ((calculateRoutePattern (fun _ _ => 0) [] toyStations toyTimes
        toyRoute).segments).length = toyRoute.stations.length - 1 ∧
    (∀ seg ∈ (calculateRoutePattern (fun _ _ => 0) [] toyStations toyTimes
        toyRoute).segments,
      seg.distance = calculatePathLength (fun _ _ => 0) seg.trackPath) ∧
    (calculateRoutePattern (fun _ _ => 0) [] toyStations toyTimes
        toyRoute).totalDistance =
      (((calculateRoutePattern (fun _ _ => 0) [] toyStations toyTimes
        toyRoute).segments).map
        (fun seg => calculatePathLength (fun _ _ => 0) seg.trackPath)).sum :=
  routeGeometry_segment_count_and_distances (fun _ _ => 0) [] toyStations toyTimes
    toyRoute (by decide)

end Rayda
